import Mathlib

/-!
# Shallow embedding of the kiro-insbridge instruction decoder

This file embeds the instruction-decoder core of the repository
(`src/kiro_insbridge/enterprise_rating/ast_decoder/*` plus the tree driver in
`repository/program_version_repository.py`) as executable Lean definitions and
proves/refutes the specification claims about it.

Modelling conventions:
* Python machine values that may be `None` become `Option`.
* Python exceptions (uncaught `AttributeError`/`ValueError`/… escaping a
  function) become `Except String`; an exception that the Python code catches
  locally is modelled inside the definition (e.g. `split_var_token` returns
  `Option` because its only caller catches the `ValueError`).
* Python's dynamically-typed token lists — several tokenizer strategies return
  bare `str` fragments while others return `Token` records — are modelled by
  `PyTok`; reading `.value`/`.type` off a bare string raises `AttributeError`,
  modelled by `Except`.
* `InsType` enum objects are represented by their numeric `.value`; AST node
  `ins_type` fields store that number (`Option Int`, since the repository
  driver can store `None` there).
* The non-terminating loop in `tokenize_scan` (the pointer can fail to
  advance) is modelled with fuel; failure to advance — exactly the Python
  divergence condition — and fuel exhaustion are mapped to `Except.error`.
-/

namespace Insbridge

/-- Common header fields shared by all AST dataclasses
(`ast_nodes.ASTNode`): step number, numeric ins_type, english, template_id,
step_type. -/
structure Header where
  step : Int
  insType : Option Int
  english : String := ""
  templateId : String := ""
  stepType : Option Int := none
  deriving Repr, DecidableEq

/-- `ast_nodes.RawNode`: leaf carrying `raw`, `value` and an optional token
`type`.  `value` is a `String` as in the dataclass annotation; the one place
Python stores `None` there (`parse_call` with a token without description) is
noted at that definition. -/
structure RawLeaf where
  hdr : Header
  raw : String
  value : String
  ntype : Option String := none
  deriving Repr, DecidableEq

/-- `ast_nodes.CompareNode`: `left ∘ right` with optional `cond_op`. -/
structure CompareS where
  hdr : Header
  left : RawLeaf
  operator : String
  right : RawLeaf
  condOp : Option String := none
  deriving Repr, DecidableEq

/-- `ast_nodes.TypeCheckNode`: unary type check on a variable. -/
structure TypeCheckS where
  hdr : Header
  left : RawLeaf
  checkType : String
  deriving Repr, DecidableEq

/-- `ast_nodes.MultiConditionNode`: a list of comparisons and a joiner. -/
structure MultiCondS where
  hdr : Header
  conditions : List CompareS
  joiner : String
  condOp : Option String := none
  deriving Repr, DecidableEq

/-- `ast_nodes.JumpNode`. -/
structure JumpS where
  hdr : Header
  target : Option Int := none
  deriving Repr, DecidableEq

/-- `ast_nodes.ArithmeticNode`. -/
structure ArithS where
  hdr : Header
  left : RawLeaf
  operator : String
  right : RawLeaf
  roundSpec : Option String := none
  roundEnglish : Option String := none
  deriving Repr, DecidableEq

/-- `ast_nodes.FunctionNode`: name, `args : list[RawNode]`, round spec. -/
structure FuncS where
  hdr : Header
  name : String
  args : List RawLeaf
  roundSpec : Option String := none
  deriving Repr, DecidableEq

/-- The `IfNode.condition` union `CompareNode | MultiConditionNode |
TypeCheckNode`. -/
inductive CondU where
  | cmp (c : CompareS)
  | multi (m : MultiCondS)
  | tcheck (t : TypeCheckS)
  deriving Repr, DecidableEq

/-- The AST node sum (`ast_nodes.py`).  `ifN` and `assign` carry nested node
lists (`true_branch`, `false_branch`, `next_true`, `next_false`, `expr`) typed
`list[ASTNode]`/`ASTNode` in the source. -/
inductive Node where
  | raw (r : RawLeaf)
  | cmp (c : CompareS)
  | multi (m : MultiCondS)
  | tcheck (t : TypeCheckS)
  | jump (j : JumpS)
  | arith (a : ArithS)
  | funcN (f : FuncS)
  | ifN (hdr : Header) (trueBranch falseBranch : List Node) (condition : Option CondU)
  | assign (hdr : Header) (var : Option String) (expr : Node) (target : Option String)
      (nextTrue nextFalse : Option (List Node))
  deriving Repr

/-- Header of any node. -/
def Node.hdrOf : Node → Header
  | .raw r => r.hdr
  | .cmp c => c.hdr
  | .multi m => m.hdr
  | .tcheck t => t.hdr
  | .jump j => j.hdr
  | .arith a => a.hdr
  | .funcN f => f.hdr
  | .ifN h _ _ _ => h
  | .assign h _ _ _ _ _ => h

/-- `isinstance(n, JumpNode)`. -/
def Node.isJump : Node → Bool
  | .jump _ => true
  | _ => false

/-- `isinstance(n, AssignmentNode)`. -/
def Node.isAssign : Node → Bool
  | .assign _ _ _ _ _ _ => true
  | _ => false

/-- `isinstance(n, IfNode)`. -/
def Node.isIf : Node → Bool
  | .ifN _ _ _ _ => true
  | _ => false

/-- `defs.InsType`: the instruction-type enumeration.  The Python member
`STRING_ADDITION = 86` is an alias of `INS_STR_CONCAT = 86` (Python `Enum`
collapses aliases), so it is not a separate constructor. -/
inductive InsType where
  | UNKNOWN
  | DEF_INS_TYPE_ARITHEMETIC
  | DEF_INS_TYPE_NUMERIC_IF
  | DEF_INS_TYPE_CALL
  | SORT
  | DEF_INS_TYPE_MASK
  | SET_STRING
  | EMPTY
  | IF_ALL_ALL
  | IF_NO_ALL
  | IF_ANY_ALL
  | IF_ALL_CURRENT_PATH
  | IF_NO_CURRENT_PATH
  | IF_ANY_CURRENT_PATH
  | IF_DATE
  | DATE_DIFF_DAYS
  | DATE_DIFF_MONTHS
  | DATE_DIFF_YEARS
  | INS_DATE_ADDITION
  | INS_SUM
  | INS_SUM_CURRENT_PATH
  | INS_STR_CONCAT
  | INS_ABS
  | INS_STRING_LENGTH
  | INS_CNT_CATEGORY_AVAILABLE
  | INS_CNT_CATEGORY_INSTANCE
  | INS_GET_CATEGORY_ITEM
  | INS_SET_CATEGORY_ITEM
  | INS_GET_RANKED_CATEGORY_ITEM
  | INS_SET_RANKED_CATEGORY_ITEM
  | INS_GET_CATEGORY_ITEM_AVAILABLE
  | INS_SET_CATEGORY_ITEM_AVAILABLE
  | INS_RANK_CATEGORY_AVAILABLE
  | INS_RANK_CATEGORY_INSTANCE
  | INS_FLAG_ALL_BY_USAGE_SET
  | INS_RANK_ALL_BY_USAGE_SET_COND_ASC
  | INS_RANK_ALL_BY_USAGE_SET_COND_DES
  | INS_MATH_FUNC_EXP
  | INS_MATH_FUNC_LOG
  | INS_MATH_FUNC_LOG10
  | INS_MATH_FUNC_EXPE
  | INS_MATH_FUNC_RAND
  | INS_MATH_FUNC_FACT
  | INS_MATH_FUNC_SQRT
  | INS_MATH_FUNC_CEIL
  | INS_MATH_FUNC_FLOOR
  | INS_MATH_FUNC_EVEN
  | INS_MATH_FUNC_ODD
  | INS_TRIG_FUNC_COS
  | INS_TRIG_FUNC_COSH
  | INS_TRIG_FUNC_ACOS
  | INS_TRIG_FUNC_ACOSH
  | INS_TRIG_FUNC_SIN
  | INS_TRIG_FUNC_SINH
  | INS_TRIG_FUNC_ASIN
  | INS_TRIG_FUNC_ASINH
  | INS_TRIG_FUNC_TAN
  | INS_TRIG_FUNC_TANH
  | INS_TRIG_FUNC_ATAN
  | INS_TRIG_FUNC_ATANH
  | INS_TRIG_FUNC_DEG
  | INS_TRIG_FUNC_RAD
  | INS_IS_ALPHA
  | INS_IS_DATE
  | INS_IS_NUMERIC
  | INS_ASSOCIATE_HRV_VALUE_TO_HRD_VALUE
  | INS_QUERY_DATA_SOURCE
  | DEF_INS_TYPE_SET_UNDERWRITING_TO_FAIL
  deriving Repr, DecidableEq

/-- The numeric `.value` of each `InsType` member (`defs.py`). -/
def InsType.code : InsType → Int
  | .UNKNOWN => -1
  | .DEF_INS_TYPE_ARITHEMETIC => 0
  | .DEF_INS_TYPE_NUMERIC_IF => 1
  | .DEF_INS_TYPE_CALL => 2
  | .SORT => 3
  | .DEF_INS_TYPE_MASK => 4
  | .SET_STRING => 5
  | .EMPTY => 6
  | .IF_ALL_ALL => 50
  | .IF_NO_ALL => 51
  | .IF_ANY_ALL => 52
  | .IF_ALL_CURRENT_PATH => 53
  | .IF_NO_CURRENT_PATH => 54
  | .IF_ANY_CURRENT_PATH => 55
  | .IF_DATE => 56
  | .DATE_DIFF_DAYS => 57
  | .DATE_DIFF_MONTHS => 58
  | .DATE_DIFF_YEARS => 59
  | .INS_DATE_ADDITION => 126
  | .INS_SUM => 60
  | .INS_SUM_CURRENT_PATH => 87
  | .INS_STR_CONCAT => 86
  | .INS_ABS => 84
  | .INS_STRING_LENGTH => 85
  | .INS_CNT_CATEGORY_AVAILABLE => 89
  | .INS_CNT_CATEGORY_INSTANCE => 90
  | .INS_GET_CATEGORY_ITEM => 120
  | .INS_SET_CATEGORY_ITEM => 121
  | .INS_GET_RANKED_CATEGORY_ITEM => 122
  | .INS_SET_RANKED_CATEGORY_ITEM => 123
  | .INS_GET_CATEGORY_ITEM_AVAILABLE => 124
  | .INS_SET_CATEGORY_ITEM_AVAILABLE => 125
  | .INS_RANK_CATEGORY_AVAILABLE => 93
  | .INS_RANK_CATEGORY_INSTANCE => 94
  | .INS_FLAG_ALL_BY_USAGE_SET => 113
  | .INS_RANK_ALL_BY_USAGE_SET_COND_ASC => 118
  | .INS_RANK_ALL_BY_USAGE_SET_COND_DES => 119
  | .INS_MATH_FUNC_EXP => 127
  | .INS_MATH_FUNC_LOG => 128
  | .INS_MATH_FUNC_LOG10 => 129
  | .INS_MATH_FUNC_EXPE => 130
  | .INS_MATH_FUNC_RAND => 131
  | .INS_MATH_FUNC_FACT => 132
  | .INS_MATH_FUNC_SQRT => 133
  | .INS_MATH_FUNC_CEIL => 134
  | .INS_MATH_FUNC_FLOOR => 135
  | .INS_MATH_FUNC_EVEN => 136
  | .INS_MATH_FUNC_ODD => 137
  | .INS_TRIG_FUNC_COS => 138
  | .INS_TRIG_FUNC_COSH => 139
  | .INS_TRIG_FUNC_ACOS => 140
  | .INS_TRIG_FUNC_ACOSH => 141
  | .INS_TRIG_FUNC_SIN => 142
  | .INS_TRIG_FUNC_SINH => 143
  | .INS_TRIG_FUNC_ASIN => 144
  | .INS_TRIG_FUNC_ASINH => 145
  | .INS_TRIG_FUNC_TAN => 146
  | .INS_TRIG_FUNC_TANH => 147
  | .INS_TRIG_FUNC_ATAN => 148
  | .INS_TRIG_FUNC_ATANH => 149
  | .INS_TRIG_FUNC_DEG => 150
  | .INS_TRIG_FUNC_RAD => 151
  | .INS_IS_ALPHA => 99
  | .INS_IS_DATE => 95
  | .INS_IS_NUMERIC => 98
  | .INS_ASSOCIATE_HRV_VALUE_TO_HRD_VALUE => 110
  | .INS_QUERY_DATA_SOURCE => 200
  | .DEF_INS_TYPE_SET_UNDERWRITING_TO_FAIL => 254

/-- Python `InsType(v)`: the member with value `v`, else a `ValueError`
(modelled by `none`). -/
def insTypeOfCode (v : Int) : Option InsType :=
  match v with
  | -1 => some .UNKNOWN
  | 0 => some .DEF_INS_TYPE_ARITHEMETIC
  | 1 => some .DEF_INS_TYPE_NUMERIC_IF
  | 2 => some .DEF_INS_TYPE_CALL
  | 3 => some .SORT
  | 4 => some .DEF_INS_TYPE_MASK
  | 5 => some .SET_STRING
  | 6 => some .EMPTY
  | 50 => some .IF_ALL_ALL
  | 51 => some .IF_NO_ALL
  | 52 => some .IF_ANY_ALL
  | 53 => some .IF_ALL_CURRENT_PATH
  | 54 => some .IF_NO_CURRENT_PATH
  | 55 => some .IF_ANY_CURRENT_PATH
  | 56 => some .IF_DATE
  | 57 => some .DATE_DIFF_DAYS
  | 58 => some .DATE_DIFF_MONTHS
  | 59 => some .DATE_DIFF_YEARS
  | 126 => some .INS_DATE_ADDITION
  | 60 => some .INS_SUM
  | 87 => some .INS_SUM_CURRENT_PATH
  | 86 => some .INS_STR_CONCAT
  | 84 => some .INS_ABS
  | 85 => some .INS_STRING_LENGTH
  | 89 => some .INS_CNT_CATEGORY_AVAILABLE
  | 90 => some .INS_CNT_CATEGORY_INSTANCE
  | 120 => some .INS_GET_CATEGORY_ITEM
  | 121 => some .INS_SET_CATEGORY_ITEM
  | 122 => some .INS_GET_RANKED_CATEGORY_ITEM
  | 123 => some .INS_SET_RANKED_CATEGORY_ITEM
  | 124 => some .INS_GET_CATEGORY_ITEM_AVAILABLE
  | 125 => some .INS_SET_CATEGORY_ITEM_AVAILABLE
  | 93 => some .INS_RANK_CATEGORY_AVAILABLE
  | 94 => some .INS_RANK_CATEGORY_INSTANCE
  | 113 => some .INS_FLAG_ALL_BY_USAGE_SET
  | 118 => some .INS_RANK_ALL_BY_USAGE_SET_COND_ASC
  | 119 => some .INS_RANK_ALL_BY_USAGE_SET_COND_DES
  | 127 => some .INS_MATH_FUNC_EXP
  | 128 => some .INS_MATH_FUNC_LOG
  | 129 => some .INS_MATH_FUNC_LOG10
  | 130 => some .INS_MATH_FUNC_EXPE
  | 131 => some .INS_MATH_FUNC_RAND
  | 132 => some .INS_MATH_FUNC_FACT
  | 133 => some .INS_MATH_FUNC_SQRT
  | 134 => some .INS_MATH_FUNC_CEIL
  | 135 => some .INS_MATH_FUNC_FLOOR
  | 136 => some .INS_MATH_FUNC_EVEN
  | 137 => some .INS_MATH_FUNC_ODD
  | 138 => some .INS_TRIG_FUNC_COS
  | 139 => some .INS_TRIG_FUNC_COSH
  | 140 => some .INS_TRIG_FUNC_ACOS
  | 141 => some .INS_TRIG_FUNC_ACOSH
  | 142 => some .INS_TRIG_FUNC_SIN
  | 143 => some .INS_TRIG_FUNC_SINH
  | 144 => some .INS_TRIG_FUNC_ASIN
  | 145 => some .INS_TRIG_FUNC_ASINH
  | 146 => some .INS_TRIG_FUNC_TAN
  | 147 => some .INS_TRIG_FUNC_TANH
  | 148 => some .INS_TRIG_FUNC_ATAN
  | 149 => some .INS_TRIG_FUNC_ATANH
  | 150 => some .INS_TRIG_FUNC_DEG
  | 151 => some .INS_TRIG_FUNC_RAD
  | 99 => some .INS_IS_ALPHA
  | 95 => some .INS_IS_DATE
  | 98 => some .INS_IS_NUMERIC
  | 110 => some .INS_ASSOCIATE_HRV_VALUE_TO_HRD_VALUE
  | 200 => some .INS_QUERY_DATA_SOURCE
  | 254 => some .DEF_INS_TYPE_SET_UNDERWRITING_TO_FAIL
  | _ => none

/-- `helpers.ins_helpers.get_ins_type_def`: `None` or an invalid code give
`UNKNOWN`. -/
def getInsTypeDef (insType : Option Int) : InsType :=
  match insType with
  | none => .UNKNOWN
  | some v => (insTypeOfCode v).getD .UNKNOWN

/-- The Python `.name` of each `InsType` member, as used by
`parse_function`/`parse_rank_flag`. -/
def InsType.pyName : InsType → String
  | .UNKNOWN => "UNKNOWN"
  | .DEF_INS_TYPE_ARITHEMETIC => "DEF_INS_TYPE_ARITHEMETIC"
  | .DEF_INS_TYPE_NUMERIC_IF => "DEF_INS_TYPE_NUMERIC_IF"
  | .DEF_INS_TYPE_CALL => "DEF_INS_TYPE_CALL"
  | .SORT => "SORT"
  | .DEF_INS_TYPE_MASK => "DEF_INS_TYPE_MASK"
  | .SET_STRING => "SET_STRING"
  | .EMPTY => "EMPTY"
  | .IF_ALL_ALL => "IF_ALL_ALL"
  | .IF_NO_ALL => "IF_NO_ALL"
  | .IF_ANY_ALL => "IF_ANY_ALL"
  | .IF_ALL_CURRENT_PATH => "IF_ALL_CURRENT_PATH"
  | .IF_NO_CURRENT_PATH => "IF_NO_CURRENT_PATH"
  | .IF_ANY_CURRENT_PATH => "IF_ANY_CURRENT_PATH"
  | .IF_DATE => "IF_DATE"
  | .DATE_DIFF_DAYS => "DATE_DIFF_DAYS"
  | .DATE_DIFF_MONTHS => "DATE_DIFF_MONTHS"
  | .DATE_DIFF_YEARS => "DATE_DIFF_YEARS"
  | .INS_DATE_ADDITION => "INS_DATE_ADDITION"
  | .INS_SUM => "INS_SUM"
  | .INS_SUM_CURRENT_PATH => "INS_SUM_CURRENT_PATH"
  | .INS_STR_CONCAT => "INS_STR_CONCAT"
  | .INS_ABS => "INS_ABS"
  | .INS_STRING_LENGTH => "INS_STRING_LENGTH"
  | .INS_CNT_CATEGORY_AVAILABLE => "INS_CNT_CATEGORY_AVAILABLE"
  | .INS_CNT_CATEGORY_INSTANCE => "INS_CNT_CATEGORY_INSTANCE"
  | .INS_GET_CATEGORY_ITEM => "INS_GET_CATEGORY_ITEM"
  | .INS_SET_CATEGORY_ITEM => "INS_SET_CATEGORY_ITEM"
  | .INS_GET_RANKED_CATEGORY_ITEM => "INS_GET_RANKED_CATEGORY_ITEM"
  | .INS_SET_RANKED_CATEGORY_ITEM => "INS_SET_RANKED_CATEGORY_ITEM"
  | .INS_GET_CATEGORY_ITEM_AVAILABLE => "INS_GET_CATEGORY_ITEM_AVAILABLE"
  | .INS_SET_CATEGORY_ITEM_AVAILABLE => "INS_SET_CATEGORY_ITEM_AVAILABLE"
  | .INS_RANK_CATEGORY_AVAILABLE => "INS_RANK_CATEGORY_AVAILABLE"
  | .INS_RANK_CATEGORY_INSTANCE => "INS_RANK_CATEGORY_INSTANCE"
  | .INS_FLAG_ALL_BY_USAGE_SET => "INS_FLAG_ALL_BY_USAGE_SET"
  | .INS_RANK_ALL_BY_USAGE_SET_COND_ASC => "INS_RANK_ALL_BY_USAGE_SET_COND_ASC"
  | .INS_RANK_ALL_BY_USAGE_SET_COND_DES => "INS_RANK_ALL_BY_USAGE_SET_COND_DES"
  | .INS_MATH_FUNC_EXP => "INS_MATH_FUNC_EXP"
  | .INS_MATH_FUNC_LOG => "INS_MATH_FUNC_LOG"
  | .INS_MATH_FUNC_LOG10 => "INS_MATH_FUNC_LOG10"
  | .INS_MATH_FUNC_EXPE => "INS_MATH_FUNC_EXPE"
  | .INS_MATH_FUNC_RAND => "INS_MATH_FUNC_RAND"
  | .INS_MATH_FUNC_FACT => "INS_MATH_FUNC_FACT"
  | .INS_MATH_FUNC_SQRT => "INS_MATH_FUNC_SQRT"
  | .INS_MATH_FUNC_CEIL => "INS_MATH_FUNC_CEIL"
  | .INS_MATH_FUNC_FLOOR => "INS_MATH_FUNC_FLOOR"
  | .INS_MATH_FUNC_EVEN => "INS_MATH_FUNC_EVEN"
  | .INS_MATH_FUNC_ODD => "INS_MATH_FUNC_ODD"
  | .INS_TRIG_FUNC_COS => "INS_TRIG_FUNC_COS"
  | .INS_TRIG_FUNC_COSH => "INS_TRIG_FUNC_COSH"
  | .INS_TRIG_FUNC_ACOS => "INS_TRIG_FUNC_ACOS"
  | .INS_TRIG_FUNC_ACOSH => "INS_TRIG_FUNC_ACOSH"
  | .INS_TRIG_FUNC_SIN => "INS_TRIG_FUNC_SIN"
  | .INS_TRIG_FUNC_SINH => "INS_TRIG_FUNC_SINH"
  | .INS_TRIG_FUNC_ASIN => "INS_TRIG_FUNC_ASIN"
  | .INS_TRIG_FUNC_ASINH => "INS_TRIG_FUNC_ASINH"
  | .INS_TRIG_FUNC_TAN => "INS_TRIG_FUNC_TAN"
  | .INS_TRIG_FUNC_TANH => "INS_TRIG_FUNC_TANH"
  | .INS_TRIG_FUNC_ATAN => "INS_TRIG_FUNC_ATAN"
  | .INS_TRIG_FUNC_ATANH => "INS_TRIG_FUNC_ATANH"
  | .INS_TRIG_FUNC_DEG => "INS_TRIG_FUNC_DEG"
  | .INS_TRIG_FUNC_RAD => "INS_TRIG_FUNC_RAD"
  | .INS_IS_ALPHA => "INS_IS_ALPHA"
  | .INS_IS_DATE => "INS_IS_DATE"
  | .INS_IS_NUMERIC => "INS_IS_NUMERIC"
  | .INS_ASSOCIATE_HRV_VALUE_TO_HRD_VALUE => "INS_ASSOCIATE_HRV_VALUE_TO_HRD_VALUE"
  | .INS_QUERY_DATA_SOURCE => "INS_QUERY_DATA_SOURCE"
  | .DEF_INS_TYPE_SET_UNDERWRITING_TO_FAIL => "DEF_INS_TYPE_SET_UNDERWRITING_TO_FAIL"

/-! ## Python string helpers -/

/-- Python `str.title()` for the ASCII strings used here: a letter starts
upper-case unless the previous character was a letter; non-letters pass
through. -/
def pyTitleGo : List Char → Bool → List Char
  | [], _ => []
  | c :: cs, prevAlpha =>
    (if c.isAlpha then (if prevAlpha then c.toLower else c.toUpper) else c) ::
      pyTitleGo cs c.isAlpha

/-- Python `str.title()`. -/
def pyTitle (s : String) : String := (pyTitleGo s.data false).asString

/-- Python `s[1:-1]`. -/
def dropEnds (s : String) : String := ((s.data.drop 1).dropLast).asString

/-- Python `s.startswith(pre)` (character-list based so that concrete
instances reduce in the kernel). -/
def pyStartsWith (s pre : String) : Bool := pre.data.isPrefixOf s.data

/-- Python `c in s` for a single character. -/
def pyContains (s : String) (c : Char) : Bool := s.data.any (· = c)

/-- Python `s.split(c)` for a one-character separator, keeping empty
fragments (so `"".split(c) = [""]`). -/
def pySplitCharGo (c : Char) : List Char → List String
  | [] => [""]
  | x :: rest =>
    let r := pySplitCharGo c rest
    if x = c then "" :: r
    else
      match r with
      | h :: t => String.mk (x :: h.data) :: t
      | [] => [String.mk [x]]

/-- Python `s.split(c)` for a one-character separator. -/
def pySplitChar (s : String) (c : Char) : List String := pySplitCharGo c s.data

/-- Python `s.strip()`. -/
def pyStrip (s : String) : String :=
  ((s.data.dropWhile Char.isWhitespace).reverse.dropWhile Char.isWhitespace).reverse.asString

/-- Python `int(s)` guarded by `s.isdigit()`: `some` exactly on non-empty
all-digit strings. -/
def pyToNat (s : String) : Option Nat :=
  if s.data ≠ [] ∧ s.data.all Char.isDigit then
    some (s.data.foldl (fun acc c => acc * 10 + (c.toNat - '0'.toNat)) 0)
  else none

/-- Python `s[:n]`. -/
def pyTake (s : String) (n : Nat) : String := (s.data.take n).asString

/-- Python `s[n:]`. -/
def pyDrop (s : String) (n : Nat) : String := (s.data.drop n).asString

/-- Python `sep.join(xs)`. -/
def pyJoin (sep : String) : List String → String
  | [] => ""
  | [x] => x
  | x :: rest => x ++ sep ++ pyJoin sep rest

/-- Python `s.replace(a, b)` for one-character pattern and replacement. -/
def pyReplaceChar (s : String) (a b : Char) : String :=
  (s.data.map (fun c => if c = a then b else c)).asString

/-- Python `str(x)` for an optional int (`str(None) = "None"`). -/
def pyStrOptInt : Option Int → String
  | none => "None"
  | some v => toString v

/-! ## Entities (`entities/*.py`), restricted to the fields the decoder
reads -/

/-- `entities.input_variable.Input`: one data-dictionary input. -/
structure InputE where
  line : String
  index : Int
  description : String
  deriving Repr, DecidableEq

/-- `entities.program_version.DataDictionary` (the `inputs` list is all the
decoder reads). -/
structure DataDictionaryE where
  inputs : List InputE
  deriving Repr, DecidableEq

/-- `entities.program_version.ProgramVersion`, restricted to `line` and
`data_dictionary`. -/
structure ProgramVersionE where
  line : String
  dataDictionary : DataDictionaryE
  deriving Repr, DecidableEq

/-- `entities.dependency.DependencyBase`, restricted to the fields the symbol
resolver reads. -/
structure DepE where
  description : String
  index : Int
  calcIndex : Option Int := none
  ibType : Option String := none
  deriving Repr, DecidableEq

/-- `DependencyBase.is_calculated_variable`: `ib_type` in the
`CalculatedVariable` literal set `{"10", "3"}`. -/
def DepE.isCalculatedVariable (d : DepE) : Bool :=
  d.ibType = some "10" ∨ d.ibType = some "3"

/-- `DependencyBase.is_result_variable`: `ib_type ∈ {"8", "16"}`. -/
def DepE.isResultVariable (d : DepE) : Bool :=
  d.ibType = some "8" ∨ d.ibType = some "16"

/-- `DependencyBase.is_table_variable`: `ib_type ∈ {"6", "9"}`. -/
def DepE.isTableVariable (d : DepE) : Bool :=
  d.ibType = some "6" ∨ d.ibType = some "9"

/-- An element of the `algorithm_or_dependency` scope list, whose Python type
is `Algorithm | DependencyBase`.  The resolver only uses `isinstance`
dispatch, so the `Algorithm` payload is irrelevant here. -/
inductive ScopeItem where
  | alg
  | dep (d : DepE)
  deriving Repr, DecidableEq

/-! ## Symbol resolver (`defs.split_var_token`,
`helpers/var_lookup.py`) -/

/-- `defs.split_var_token`: strips a leading `~`/`D`, requires
`XX_<digits>[.<digits>]` and returns `(prefix, var_id, sub_id)`.  A raised
`ValueError` — which every caller catches — is modelled by `none`. -/
def splitVarToken (token : String) : Option (String × Int × Option Int) :=
  let tk := if pyStartsWith token "~" ∨ pyStartsWith token "D" then pyDrop token 1 else token
  if ¬ pyContains tk '_' ∨ tk.length < 3 then none
  else
    let pre := pyTake tk 2
    let rest := pyDrop tk 3
    if pyContains rest '.' then
      let ps := pySplitChar rest '.'
      let mainId := ps.headD ""
      let subId := pyJoin "." ps.tail
      match pyToNat mainId, pyToNat subId with
      | some m, some s => some (pre, (m : Int), some (s : Int))
      | _, _ => none
    else
      match pyToNat rest with
      | some m => some (pre, (m : Int), none)
      | none => none

/-- The operator-token dictionary at the top of `get_var_desc`. -/
def opMap (s : String) : Option String :=
  match s with
  | "=" => some "[equals]"
  | ">" => some "[greater than]"
  | "<" => some "[less than]"
  | "<=" => some "[less than or equal to]"
  | ">=" => some "[greater than or equal to]"
  | "!=" => some "[not equal to]"
  | "<>" => some "[not equal to]"
  | "@" => some "[bitwise AND]"
  | "^" => some "[bitwise OR]"
  | _ => none

/-- `helpers.var_lookup.get_var_desc`.  The `token_type` parameter is
accepted and ignored, exactly as in the source.  Python never raises here:
the only exception (`ValueError` from `split_var_token`) is caught and the
raw token returned. -/
def get_var_desc (targetVar : String) (_tokenType : Option String := none)
    (deps : Option (List ScopeItem) := none)
    (pv : Option ProgramVersionE := none) : String :=
  match opMap targetVar with
  | some phrase => phrase
  | none =>
    if pyStartsWith targetVar "\x7b" ∨ pyStartsWith targetVar "[" then
      let stripped := pyStrip targetVar
      let inner := pyStrip (dropEnds stripped)
      if inner = "" then "NULL" else inner
    else
      match splitVarToken targetVar with
      | none => targetVar
      | some (pre, varId, _subId) =>
        if (pre = "GI" ∨ pre = "LX" ∨ pre = "IX") ∧ pv.isSome then
          match pv with
          | some p =>
            match p.dataDictionary.inputs.find?
                (fun iv => iv.index == varId && iv.line == p.line) with
            | some iv => if iv.description = "" then targetVar else iv.description
            | none => targetVar
          | none => targetVar
        else if pre = "LS" then s!"Results of Step {varId}"
        else
          match deps with
          | some ds =>
            if pre = "PL" ∨ pre = "GL" ∨ pre = "PQ" ∨ pre = "GQ" then
              match ds.find? (fun it =>
                  match it with
                  | .dep d => d.isTableVariable && d.index == varId
                  | .alg => false) with
              | some (.dep d) => if d.description = "" then targetVar else d.description
              | _ => targetVar
            else if pre = "GR" ∨ pre = "PR" then
              match ds.find? (fun it =>
                  match it with
                  | .dep d => d.isResultVariable && d.index == varId
                  | .alg => false) with
              | some (.dep d) => if d.description = "" then targetVar else d.description
              | _ => targetVar
            else if pre = "PC" ∨ pre = "GC" ∨ pre = "PP" ∨ pre = "GP" then
              match ds.find? (fun it =>
                  match it with
                  | .dep d => d.isCalculatedVariable && d.calcIndex == some varId
                  | .alg => false) with
              | some (.dep d) => if d.description = "" then targetVar else d.description
              | _ => targetVar
            else targetVar
          | none => targetVar

/-- `helpers.var_lookup.get_target_var_desc`.  An `Algorithm` scope item
returns the target unchanged (possibly `None`); otherwise a `None` target
reaches `split_var_token` where `None.startswith` raises an uncaught
`AttributeError`. -/
def get_target_var_desc (targetVar : Option String) (dep : Option ScopeItem) :
    Except String (Option String) :=
  match dep with
  | some .alg => .ok targetVar
  | _ =>
    match targetVar with
    | none => .error "AttributeError: 'NoneType' object has no attribute 'startswith'"
    | some tv =>
      match splitVarToken tv with
      | none => .ok (some tv)
      | some (pre, varId, _) =>
        match dep with
        | some (.dep d) =>
          if (pre = "PC" ∨ pre = "GC" ∨ pre = "PP" ∨ pre = "GP")
              ∧ d.calcIndex == some varId then
            .ok (some (if d.description = "" then tv else d.description))
          else .ok (some tv)
        | _ => .ok (some tv)

/-! ## Tokenizer (`tokenizer.py`, `helpers/parse_result.py`) -/

/-- `tokenizer.Token` (a NamedTuple): `type`, `value`, optional
`description`. -/
structure Token where
  ttype : String
  value : String
  description : Option String := none
  deriving Repr, DecidableEq

/-- A dynamically-typed element of a Python token list.  `tokenize_all` and
`tokenize_scan` emit `Token` records, while every other strategy returns the
bare `str` fragments of a split; parsers that expect `Token`s crash with
`AttributeError` on the latter. -/
inductive PyTok where
  | tok (t : Token)
  | str (s : String)
  deriving Repr, DecidableEq

/-- Python `t.value`: an `AttributeError` on a bare string. -/
def PyTok.value : PyTok → Except String String
  | .tok t => .ok t.value
  | .str _ => .error "AttributeError: 'str' object has no attribute 'value'"

/-- Python `t.type`: an `AttributeError` on a bare string. -/
def PyTok.ftype : PyTok → Except String String
  | .tok t => .ok t.ttype
  | .str _ => .error "AttributeError: 'str' object has no attribute 'type'"

/-- Python `getattr(t, "description", "")`: a `Token` always has the
attribute (possibly `None`, which downstream code treats like the empty
default), a bare `str` does not and yields the `""` default. -/
def PyTok.descrOrEmpty : PyTok → String
  | .tok t => t.description.getD ""
  | .str _ => ""

/-- `tokenize_default`. -/
def tokenize_default (raw : String) : List String :=
  if raw = "" then [] else [raw]

/-- `tokenize_pipe`. -/
def tokenize_pipe (raw : String) : List String :=
  if raw = "" then [] else pySplitChar raw '|'

/-- `tokenize_plus`. -/
def tokenize_plus (raw : String) : List String :=
  if raw = "" then [] else pySplitChar raw '+'

/-- `tokenize_pipe_first`: at most two fragments at the first `|`. -/
def tokenize_pipe_first (raw : String) : List String :=
  if raw = "" then []
  else
    match raw.data.findIdx? (· = '|') with
    | none => [raw]
    | some idx => [(raw.data.take idx).asString, (raw.data.drop (idx + 1)).asString]

/-- `tokenize_tilde_pipe`: after the first `~`, split the tail on `|`. -/
def tokenize_tilde_pipe (raw : String) : List String :=
  if raw = "" then []
  else
    let core :=
      match raw.data.findIdx? (· = '~') with
      | some idx => (raw.data.drop (idx + 1)).asString
      | none => raw
    pySplitChar core '|'

/-- `tokenize_rank_usage_set`: after the first `~` (or first `|` when no
`~`), split the tail on `|`. -/
def tokenize_rank_usage_set (raw : String) : List String :=
  if raw = "" then []
  else
    let core :=
      match raw.data.findIdx? (· = '~') with
      | some idx => (raw.data.drop (idx + 1)).asString
      | none =>
        match raw.data.findIdx? (· = '|') with
        | some idx => (raw.data.drop (idx + 1)).asString
        | none => ""
    pySplitChar core '|'

/-- The delimiter alternatives of the `tokenize_all` regex
`(\||\^|\+|>=|<=|=|>|<|!R2|!RN|!RS|!|~|\{|\}|\[|\])`, in alternation
order. -/
def tokenizeAllDelims : List String :=
  ["|", "^", "+", ">=", "<=", "=", ">", "<", "!R2", "!RN", "!RS", "!", "~", "\x7b", "\x7d", "[", "]"]

/-- First delimiter (in alternation order) matching at the head of `cs`,
mirroring the regex engine's leftmost-then-first-alternative rule. -/
def matchDelimAt (cs : List Char) : Option String :=
  tokenizeAllDelims.find? (fun d => d.data.isPrefixOf cs)

/-- The interleaved word/delimiter fragments of `re.split` with a capturing
pattern.  `fuel` dominates the character count; each delimiter consumes at
least one character, so the fuel never runs out on `fuel = cs.length + 1`. -/
def splitAllGo (fuel : Nat) (cs : List Char) (cur : List Char) : List String :=
  match fuel with
  | 0 => [cur.reverse.asString]
  | fuel' + 1 =>
    match cs with
    | [] => [cur.reverse.asString]
    | c :: rest =>
      match matchDelimAt cs with
      | some d => cur.reverse.asString :: d :: splitAllGo fuel' (cs.drop d.length) []
      | none => splitAllGo fuel' rest (c :: cur)

/-- Python `p.isspace()`: non-empty and all whitespace. -/
def pyIsSpace (p : String) : Bool := p ≠ "" && p.data.all Char.isWhitespace

/-- `tokenize_all`: regex-split the body into delimiter/word parts, drop
empty or all-whitespace parts, then tag delimiters as `OP` tokens whose
*value* is the `get_var_desc` phrase and everything else as `WORD`. -/
def tokenize_all (raw : String) : List Token :=
  if raw = "" then []
  else
    let parts := (splitAllGo (raw.data.length + 1) raw.data []).filter
      (fun p => p ≠ "" && ¬ pyIsSpace p)
    parts.map (fun p =>
      if tokenizeAllDelims.any (fun d => d = p) then
        { ttype := "OP", value := get_var_desc p }
      else { ttype := "WORD", value := p })

/-- `helpers.parse_result.ParseResult`. -/
structure ParseResult where
  variable' : String
  nextOpPhrase : String
  roundVar : String
  nextOpSymbol : String
  roundVarToken : String
  variableStart : Nat
  nextPtr : Nat
  deriving Repr, DecidableEq

/-- `parse_result._done`. -/
def doneR (ptr : Nat) : ParseResult :=
  { variable' := "", nextOpPhrase := "", roundVar := "NR", nextOpSymbol := "",
    roundVarToken := "", variableStart := ptr, nextPtr := ptr }

/-- `parse_result._is_operator`.  `SUM_PRODUCT_INS_TYPES` is empty in the
source, so the extra `!` clause never fires and the `ins_type` argument is
irrelevant. -/
def isOperatorCh (c : Char) : Bool :=
  c = '+' || c = '-' || c = '*' || c = '/' || c = '!' || c = '|' || c = '@' || c = '^' || c = '#'

/-- `parse_result._operator_to_phrase`. -/
def operatorToPhrase (op : String) (variable' : String) : String :=
  match op with
  | "+" => "plus"
  | "-" => if variable' = "GI_" then "" else "minus"
  | "*" => "multiplied by"
  | "/" => "divided by"
  | "@" => "bitwise AND"
  | "^" => "bitwise OR"
  | "=" => "equals"
  | _ => ""

/-- Character at index `i` (guards in the callers keep `i` in range). -/
def charAt (cs : List Char) (i : Nat) : Char := cs.getD i ' '

/-- `parse_result._skip_leading_whitespace`.  The guard
`if ins_type == "5"` compares an enum member against a string and is
therefore always false: whitespace is skipped for every instruction type. -/
def skipWs (cs : List Char) (ptr : Nat) : Nat :=
  if h : ptr < cs.length then
    if (charAt cs ptr).isWhitespace then skipWs cs (ptr + 1) else ptr
  else ptr
termination_by cs.length - ptr

/-- The variable-accumulation `while` loop of `find_next_var` (lines 41-62):
returns the pointer at which the loop stops. -/
def scanVarLoop (cs : List Char) (ptr : Nat) (insideBrackets : Bool) : Nat :=
  if h : ptr < cs.length then
    let c := charAt cs ptr
    if ¬ insideBrackets ∧ isOperatorCh c ∧ ptr + 1 < cs.length
        ∧ ¬ isOperatorCh (charAt cs (ptr + 1)) then
      ptr
    else if c = '{' ∨ c = '[' then
      if ptr + 1 < cs.length then
        if charAt cs (ptr + 1) ≠ '}' ∧ charAt cs (ptr + 1) ≠ ']' then
          scanVarLoop cs (ptr + 1) true
        else
          scanVarLoop cs (ptr + 1) insideBrackets
      else scanVarLoop cs (ptr + 2) insideBrackets
    else if insideBrackets ∧ (c = '}' ∨ c = ']') then
      scanVarLoop cs (ptr + 1) false
    else scanVarLoop cs (ptr + 1) insideBrackets
  else ptr
termination_by cs.length - ptr

/-- The alphanumeric scan inside the `R<alnum*>` rounding branch. -/
def alnumScan (cs : List Char) (ptr : Nat) : Nat :=
  if h : ptr < cs.length then
    if (charAt cs ptr).isAlphanum then alnumScan cs (ptr + 1) else ptr
  else ptr
termination_by cs.length - ptr

/-- Python `equation[a:b]`. -/
def strSlice (cs : List Char) (a b : Nat) : String := ((cs.drop a).take (b - a)).asString

/-- `helpers.parse_result.find_next_var`.  The `ins_type` argument is kept
for signature fidelity; both of its uses in the source are no-ops (see
`skipWs` and `isOperatorCh`). -/
def find_next_var (cs : List Char) (ptr0 : Nat) (_insType : InsType) : ParseResult :=
  let length := cs.length
  if ptr0 ≥ length then doneR ptr0
  else
    let ptr1 := skipWs cs ptr0
    if ptr1 ≥ length then doneR ptr1
    else
      let varStart := ptr1
      let ptrV := scanVarLoop cs ptr1 false
      let variable' := strSlice cs varStart ptrV
      if variable' = "" then doneR ptrV
      else
        let hasOp := ptrV < length
        let opSymbol := if hasOp then String.mk [charAt cs ptrV] else ""
        let opPhrase := if hasOp then operatorToPhrase opSymbol variable' else ""
        let ptrO := if hasOp then ptrV + 1 else ptrV
        let tail := cs.drop ptrO
        let startsRPorRM := ("RP".data.isPrefixOf tail) || ("RM".data.isPrefixOf tail)
        let startsRN := "RN".data.isPrefixOf tail
        let startsR := "R".data.isPrefixOf tail && ¬ "RV".data.isPrefixOf tail
        if startsRPorRM then
          { variable' := variable', nextOpPhrase := opPhrase, roundVar := "NR",
            nextOpSymbol := opSymbol, roundVarToken := (tail.take 2).asString,
            variableStart := varStart, nextPtr := ptrO + 2 }
        else if startsRN then
          { variable' := variable', nextOpPhrase := opPhrase, roundVar := "NR",
            nextOpSymbol := opSymbol, roundVarToken := "RN",
            variableStart := varStart, nextPtr := ptrO + 2 }
        else if startsR then
          let rStart := ptrO + 1
          let rEnd := alnumScan cs rStart
          let roundVar := strSlice cs rStart rEnd
          { variable' := variable', nextOpPhrase := opPhrase, roundVar := roundVar,
            nextOpSymbol := opSymbol, roundVarToken := "R" ++ roundVar,
            variableStart := varStart, nextPtr := rEnd }
        else
          { variable' := variable', nextOpPhrase := opPhrase, roundVar := "NR",
            nextOpSymbol := opSymbol, roundVarToken := "",
            variableStart := varStart, nextPtr := ptrO }

/-- The `ROUND`-token construction in `tokenize_scan` (the `match
round_token` block). -/
def roundTokenOf (pr : ParseResult) : Option Token :=
  if pr.roundVarToken.length > 0 ∨ pr.roundVar ≠ "NR" then
    let rt := pr.roundVarToken
    if pyStartsWith rt "RP" then
      some { ttype := "ROUND", value := rt, description := some ("Round Up " ++ pyDrop rt 2) }
    else if pyStartsWith rt "RM" then
      some { ttype := "ROUND", value := rt, description := some ("Truncate " ++ pyDrop rt 2) }
    else if rt = "RN" then
      some { ttype := "ROUND", value := rt, description := some "No Round" }
    else if rt = "RS" then
      some { ttype := "ROUND", value := "", description := some "" }
    else
      some { ttype := "ROUND", value := rt, description := some ("Round " ++ pr.roundVar) }
  else none

/-- The scanning `while` loop of `tokenize_scan`.  The Python loop diverges
exactly when `find_next_var` fails to advance the pointer (its state is a
pure function of the pointer); that divergence is modelled as an error, as
is fuel exhaustion (unreachable for `fuel = cs.length + 1` because every
non-stalling step advances). -/
def tokenizeScanLoop (cs : List Char) (insType : InsType) (fuel : Nat) (ptr : Nat)
    (acc : List Token) : Except String (List Token) :=
  match fuel with
  | 0 => .error "tokenize_scan: out of fuel"
  | fuel' + 1 =>
    if ptr < cs.length then
      let pr := find_next_var cs ptr insType
      let ptr' := pr.nextPtr
      let acc1 := acc ++ [{ ttype := "VAR", value := pr.variable' : Token }]
      let acc2 := acc1 ++ (roundTokenOf pr).toList
      let acc3 :=
        if pr.nextOpSymbol ≠ "!" then
          acc2 ++ [{ ttype := "OP", value := pr.nextOpSymbol,
                     description := some pr.nextOpPhrase : Token }]
        else acc2
      if ptr' ≤ ptr then .error "tokenize_scan: loop does not terminate"
      else tokenizeScanLoop cs insType fuel' ptr' acc3
    else .ok acc

/-- `tokenize_scan`: optional synthetic `TARGET`/`OP(=)` prefix, then the
scanning loop. -/
def tokenize_scan (raw : String) (insType : InsType) (insTarget : Option String) :
    Except String (List Token) :=
  let pre : List Token :=
    match insTarget with
    | some t => [{ ttype := "TARGET", value := t },
                 { ttype := "OP", value := "=", description := some "[equals]" }]
    | none => []
  tokenizeScanLoop raw.data insType (raw.data.length + 1) 0 pre

/-- The tokenizer strategy selected by `tokenizer.dispatch_map`
(`dispatch_map.get(ins_type, (tokenize_default, "DEFAULT"))`). -/
inductive TokStrat where
  | default | pipe | plus | pipeFirst | tildePipe | rankUsage | multiIf | scan
  deriving Repr, DecidableEq

/-- `tokenizer.dispatch_map` as a function; instruction types absent from the
map fall back to `default`. -/
def tokStrategy : InsType → TokStrat
  | .DEF_INS_TYPE_CALL => .scan
  | .DEF_INS_TYPE_MASK => .pipeFirst
  | .DEF_INS_TYPE_NUMERIC_IF => .multiIf
  | .IF_ALL_ALL => .multiIf
  | .IF_NO_ALL => .multiIf
  | .IF_ANY_ALL => .multiIf
  | .IF_DATE => .multiIf
  | .IF_ALL_CURRENT_PATH => .multiIf
  | .IF_NO_CURRENT_PATH => .multiIf
  | .IF_ANY_CURRENT_PATH => .multiIf
  | .INS_IS_ALPHA => .tildePipe
  | .INS_IS_DATE => .tildePipe
  | .INS_IS_NUMERIC => .tildePipe
  | .INS_SUM => .plus
  | .INS_SUM_CURRENT_PATH => .plus
  | .INS_STR_CONCAT => .scan
  | .SET_STRING => .scan
  | .DATE_DIFF_DAYS => .pipe
  | .DATE_DIFF_MONTHS => .pipe
  | .DATE_DIFF_YEARS => .pipe
  | .INS_DATE_ADDITION => .pipe
  | .INS_GET_CATEGORY_ITEM => .pipe
  | .INS_SET_CATEGORY_ITEM => .pipe
  | .INS_GET_RANKED_CATEGORY_ITEM => .pipe
  | .INS_SET_RANKED_CATEGORY_ITEM => .pipe
  | .INS_GET_CATEGORY_ITEM_AVAILABLE => .pipe
  | .INS_SET_CATEGORY_ITEM_AVAILABLE => .pipe
  | .INS_CNT_CATEGORY_AVAILABLE => .default
  | .INS_CNT_CATEGORY_INSTANCE => .default
  | .INS_RANK_CATEGORY_AVAILABLE => .pipe
  | .INS_RANK_CATEGORY_INSTANCE => .pipe
  | .INS_FLAG_ALL_BY_USAGE_SET => .rankUsage
  | .INS_RANK_ALL_BY_USAGE_SET_COND_ASC => .rankUsage
  | .INS_RANK_ALL_BY_USAGE_SET_COND_DES => .rankUsage
  | .INS_MATH_FUNC_EXP => .pipe
  | .INS_MATH_FUNC_LOG => .pipe
  | .INS_MATH_FUNC_LOG10 => .pipe
  | .INS_MATH_FUNC_EXPE => .pipe
  | .INS_MATH_FUNC_RAND => .default
  | .INS_MATH_FUNC_FACT => .default
  | .INS_MATH_FUNC_SQRT => .pipe
  | .INS_MATH_FUNC_CEIL => .pipe
  | .INS_MATH_FUNC_FLOOR => .pipe
  | .INS_MATH_FUNC_EVEN => .default
  | .INS_MATH_FUNC_ODD => .default
  | .INS_TRIG_FUNC_COS => .pipe
  | .INS_TRIG_FUNC_COSH => .pipe
  | .INS_TRIG_FUNC_ACOS => .pipe
  | .INS_TRIG_FUNC_ACOSH => .pipe
  | .INS_TRIG_FUNC_SIN => .pipe
  | .INS_TRIG_FUNC_SINH => .pipe
  | .INS_TRIG_FUNC_ASIN => .pipe
  | .INS_TRIG_FUNC_ASINH => .pipe
  | .INS_TRIG_FUNC_TAN => .pipe
  | .INS_TRIG_FUNC_TANH => .pipe
  | .INS_TRIG_FUNC_ATAN => .pipe
  | .INS_TRIG_FUNC_ATANH => .pipe
  | .INS_TRIG_FUNC_DEG => .pipe
  | .INS_TRIG_FUNC_RAD => .pipe
  | .INS_ASSOCIATE_HRV_VALUE_TO_HRD_VALUE => .default
  | .INS_QUERY_DATA_SOURCE => .pipe
  | _ => .default

/-- `tokenizer.tokenize`: the multi-IF strategy is redirected to
`tokenize_all` and the scan strategy to `tokenize_scan` (so only those two
produce typed `Token`s; every other strategy returns bare string
fragments). -/
def tokenize (rawIns : String) (insType : InsType) (insTarget : Option String) :
    Except String (List PyTok) :=
  match tokStrategy insType with
  | .multiIf => .ok ((tokenize_all rawIns).map PyTok.tok)
  | .scan => (tokenize_scan rawIns insType insTarget).map (·.map PyTok.tok)
  | .default => .ok ((tokenize_default rawIns).map PyTok.str)
  | .pipe => .ok ((tokenize_pipe rawIns).map PyTok.str)
  | .plus => .ok ((tokenize_plus rawIns).map PyTok.str)
  | .pipeFirst => .ok ((tokenize_pipe_first rawIns).map PyTok.str)
  | .tildePipe => .ok ((tokenize_tilde_pipe rawIns).map PyTok.str)
  | .rankUsage => .ok ((tokenize_rank_usage_set rawIns).map PyTok.str)

/-! ## Template renderer (`renderer.py`) -/

/-- Modelled from the spec: `templates.yml` is not under `src/`; §6 of the
spec lists the template registry's keys, which is all `render_node`'s control
flow depends on. -/
def TEMPLATES_KEYS : List String :=
  ["IF_COMPARE", "MULTI_IF", "ARITHMETIC", "FUNCTION", "ASSIGNMENT", "JUMP", "TYPE_CHECK"]

/-- Modelled from the spec: the Jinja2 instantiation of a template with its
placeholder context.  The template texts are data in the absent
`templates.yml`; instantiation is modelled as a deterministic total function
of the template id and the placeholder values (no theorem in this file
depends on the produced text). -/
def applyTemplate (tid : String) (fields : List (String × String)) : String :=
  pyJoin " " (tid :: fields.map (fun p => p.1 ++ "=" ++ p.2))

/-- The `conditions` list comprehension in `render_node`'s `IfNode` branch:
`{left: c.left.value, op: c.operator, right: c.right.value}` per clause.  A
`TypeCheckNode` clause has no `operator`/`right`, raising `AttributeError`
(caught by `render_node`'s `except`). -/
def ifClauses : Option CondU → Except String (List (String × String × String))
  | none => .ok []
  | some (.multi m) => .ok (m.conditions.map fun c => (c.left.value, c.operator, c.right.value))
  | some (.cmp c) => .ok [(c.left.value, c.operator, c.right.value)]
  | some (.tcheck _) =>
    .error "AttributeError: 'TypeCheckNode' object has no attribute 'operator'"

/-- `getattr(cond, "joiner", "")`. -/
def condJoiner : Option CondU → String
  | some (.multi m) => m.joiner
  | _ => ""

/-- `branch[0].target if branch and isinstance(branch[0], JumpNode) else
None`, rendered as Python `str`. -/
def branchTargetStr (branch : List Node) : String :=
  match branch with
  | .jump j :: _ => pyStrOptInt j.target
  | _ => "None"

/-- `str(assignment.next_true and assignment.next_true[0].target)`
(`render_node` line 121): `None` → `"None"`, `[]` → `"[]"`, and a leading
non-`Jump` node has no `target` attribute. -/
def nextBranchStr : Option (List Node) → Except String String
  | none => .ok "None"
  | some [] => .ok "[]"
  | some (n :: _) =>
    match n with
    | .jump j => .ok (pyStrOptInt j.target)
    | _ => .error "AttributeError: object has no attribute 'target'"

/-- `", ".join(arg.value for arg in node.expr.args)` in the
`AssignmentNode` branch: only a `FunctionNode` expression has `args`. -/
def exprArgsJoin : Node → Except String String
  | .funcN f => .ok (pyJoin ", " (f.args.map (·.value)))
  | _ => .error "AttributeError: object has no attribute 'args'"

/-- `TEMPLATES.get(template_id) is not None`. -/
def templateFound (tid : String) : Bool := TEMPLATES_KEYS.any (fun k => k = tid)

/-- The body of `renderer.render_node`'s `try` block. -/
def renderTry (node : Node) : Except String String :=
  let hdr := node.hdrOf
  if templateFound hdr.templateId then
    match node with
    | .jump j => .ok (pyStrip (applyTemplate j.hdr.templateId [("target", pyStrOptInt j.target)]))
    | .ifN h tb fb cond => do
      let clauses ← ifClauses cond
      .ok (applyTemplate h.templateId
        [("conditions", pyJoin "; "
            (clauses.map fun c => c.1 ++ " " ++ c.2.1 ++ " " ++ c.2.2)),
         ("joiner", condJoiner cond),
         ("true_target", branchTargetStr tb),
         ("false_target", branchTargetStr fb)])
    | .arith a =>
      .ok (applyTemplate a.hdr.templateId
        [("left", a.left.raw), ("operator", a.operator), ("right", a.right.raw),
         ("round_spec", a.roundSpec.getD "")])
    | .funcN f =>
      .ok (applyTemplate f.hdr.templateId
        [("name", f.name),
         ("args", pyJoin ", " (f.args.map (·.raw))),
         ("round_spec", f.roundSpec.getD "")])
    | .assign h _var expr _target nTrue nFalse => do
      let args ← exprArgsJoin expr
      let nt ← nextBranchStr nTrue
      let nf ← nextBranchStr nFalse
      -- the context hard-codes `"name": "Arithmetic"` and
      -- `getattr(node, "round_spec", "")` (AssignmentNode has no round_spec)
      .ok (applyTemplate h.templateId
        [("name", "Arithmetic"), ("args", args), ("round_spec", ""),
         ("next_true", nt), ("next_false", nf)])
    | _ =>
      -- `getattr(node, "english", "") or ""`
      .ok hdr.english
  else
    -- `getattr(node, "english", f"No Template found: {id}") or "What?"`:
    -- every AST dataclass has an `english` attribute, so the getattr default
    -- is unreachable here and the `or` falls back on empty `english`.
    .ok (if hdr.english = "" then "What?" else hdr.english)

/-- `renderer.render_node`: any exception inside the `try` block is caught
and its text returned (and stored as the node's `english` by the caller's
assignment). -/
def render_node (node : Node) : String :=
  match renderTry node with
  | .ok s => s
  | .error e => e

/-! ## Parser (`parser.py`, `decode_mif.py`) -/

/-- The instruction dict handed to `decode_ins`/`parse`
(`Instruction.model_dump()`: keys `n`, `t`, `ins`, `ins_tar`, `seq_t`,
`seq_f`; `entities/instruction.py` types them `int`, `int`, `str`,
`str|None`, `int|None`, `int|None`). -/
structure RawIns where
  n : Int
  t : Int
  ins : String
  insTar : Option String := none
  seqT : Option Int := none
  seqF : Option Int := none
  deriving Repr, DecidableEq

/-- Python `InsType(v)` where the `ValueError` is *not* caught (used by
`parse_if`, `parse_if_date`, `parse_data_source`, `parse_type_check`). -/
def insTypeStrict (v : Int) : Except String InsType :=
  match insTypeOfCode v with
  | some it => .ok it
  | none => .error "ValueError: not a valid InsType"

/-- Functional counterpart of the Python mutation `node.english = …`. -/
def Node.withEnglish : Node → String → Node
  | .raw r, e => .raw { r with hdr := { r.hdr with english := e } }
  | .cmp c, e => .cmp { c with hdr := { c.hdr with english := e } }
  | .multi m, e => .multi { m with hdr := { m.hdr with english := e } }
  | .tcheck t, e => .tcheck { t with hdr := { t.hdr with english := e } }
  | .jump j, e => .jump { j with hdr := { j.hdr with english := e } }
  | .arith a, e => .arith { a with hdr := { a.hdr with english := e } }
  | .funcN f, e => .funcN { f with hdr := { f.hdr with english := e } }
  | .ifN h tb fb c, e => .ifN { h with english := e } tb fb c
  | .assign h v ex tg nt nf, e => .assign { h with english := e } v ex tg nt nf

/-- `parser.parse_if`: split the body on `|`, build
`If(Compare(left, op, right))`, wire `seq_t`/`seq_f` into single-`Jump`
branches whenever they are non-`None` (no `> 0` guard here), and render when
a template id was supplied.  The token list parameter is accepted and never
read, as in the source. -/
def parse_if (_tokens : List PyTok) (r : RawIns) (deps : Option (List ScopeItem))
    (pv : Option ProgramVersionE) (templateId : String := "") :
    Except String (List Node) := do
  let step := r.n
  let insType ← insTypeStrict r.t
  let itc := insType.code
  let insStr := r.ins
  let parts := pySplitChar insStr '|'
  let (leftVal, operator, rightVal) :=
    match parts with
    | _p0 :: p1 :: p2 :: _p3 :: _ => (p1, get_var_desc p2, _p3)
    | [p0, p1, p2] => (p0, get_var_desc p1, p2)
    | _ => (insStr, "", "")
  let descLeft := get_var_desc leftVal none deps pv
  let leftNode : RawLeaf :=
    { hdr := { step := step, insType := some itc, templateId := templateId },
      raw := leftVal, value := descLeft }
  let descRight := get_var_desc rightVal none deps pv
  let rightNode : RawLeaf :=
    { hdr := { step := step, insType := some itc, templateId := templateId },
      raw := rightVal, value := descRight }
  let condition : CompareS :=
    { hdr := { step := step, insType := some itc, english := "" },
      left := leftNode, operator := operator, right := rightNode }
  let tb : List Node :=
    match r.seqT with
    | some v => [.jump { hdr := { step := step, insType := some itc, templateId := "JUMP" },
                         target := some v }]
    | none => []
  let fb : List Node :=
    match r.seqF with
    | some v => [.jump { hdr := { step := step, insType := some itc, templateId := "JUMP" },
                         target := some v }]
    | none => []
  let node0 : Node :=
    .ifN { step := step, insType := some itc, templateId := templateId } tb fb
      (some (.cmp condition))
  let node := if templateId ≠ "" then node0.withEnglish (render_node node0) else node0
  return [node]

/-- `decode_mif` step 1: split off the base clause before the first `#`
(`MULTI_IF_SYMBOL`); with no `#` the whole body is the multi-body. -/
def mifSplit (insStr : String) : String × String :=
  if pyContains insStr '#' then
    let idx := (insStr.data.findIdx? (· = '#')).getD 0
    ((insStr.data.take idx).asString, (insStr.data.drop (idx + 1)).asString)
  else ("", insStr)

/-- `decode_mif` step 2: `('^', "OR")` when `^` occurs in the multi-body,
else `('+', "AND")`. -/
def mifJoinerPair (multiBody : String) : Char × String :=
  if pyContains multiBody '^' then ('^', "OR") else ('+', "AND")

/-- `decode_mif` step 4, the per-fragment loop: tokenize and `parse_if` each
fragment, take `nodes[0]` (an `IndexError` on an empty list), and collect its
condition when it is a `Compare`, stamping `cond_op := joiner`. -/
def mifCollect (r : RawIns) (deps : Option (List ScopeItem))
    (pv : Option ProgramVersionE) (joiner : String) :
    List String → List CompareS → Except String (List CompareS)
  | [], acc => .ok acc
  | frag :: rest, acc => do
    let fragIns := pyStrip frag
    let tokens ← tokenize fragIns (getInsTypeDef (some r.t)) none
    let nodes ← parse_if tokens { r with ins := fragIns } deps pv
    match nodes with
    | [] => .error "IndexError: list index out of range"
    | ifNode :: _ =>
      match ifNode with
      | .ifN _ _ _ (some (.cmp c)) =>
        mifCollect r deps pv joiner rest (acc ++ [{ c with condOp := some joiner }])
      | _ => mifCollect r deps pv joiner rest acc

/-- `decode_mif.decode_mif`: split off an optional base clause at the first
`#`, choose `'^'/"OR"` when `^` occurs in the multi-body and `'+'/"AND"`
otherwise, split, parse each fragment through `parse_if`, collect the
`Compare` conditions (stamping `cond_op := joiner`), and wrap everything in
one `If` over a `MultiCondition` with `> 0`-guarded `Jump` branches. -/
def decode_mif (r : RawIns) (deps : Option (List ScopeItem))
    (pv : Option ProgramVersionE) (templateId : String := "MULTI_IF") :
    Except String (List Node) := do
  let insStr := r.ins
  let step := r.n
  let insTypeI := r.t
  let (basePart, multiBody) := mifSplit insStr
  let (splitChar, joiner) := mifJoinerPair multiBody
  let fragments :=
    (if pyStrip basePart ≠ "" then [pyStrip basePart] else []) ++
      (pySplitChar multiBody splitChar).filter (fun f => pyStrip f ≠ "")
  let compareNodes ← mifCollect r deps pv joiner fragments []
  let multiCond : MultiCondS :=
    { hdr := { step := step, insType := some insTypeI, templateId := templateId,
               stepType := some insTypeI },
      conditions := compareNodes, joiner := joiner }
  let tb : List Node :=
    match r.seqT with
    | some v =>
      if v > 0 then
        [.jump { hdr := { step := step, insType := some insTypeI, stepType := some insTypeI,
                          templateId := "JUMP" }, target := some v }]
      else []
    | none => []
  let fb : List Node :=
    match r.seqF with
    | some v =>
      if v > 0 then
        [.jump { hdr := { step := step, insType := some insTypeI, stepType := some insTypeI,
                          templateId := "JUMP" }, target := some v }]
      else []
    | none => []
  let ifNode0 : Node :=
    .ifN { step := step, insType := some insTypeI, stepType := some insTypeI,
           templateId := templateId } tb fb (some (.multi multiCond))
  let ifNode := ifNode0.withEnglish (render_node ifNode0)
  return [ifNode]

/-- Python `needle in haystack` on character lists. -/
def strInAux (needle : List Char) : List Char → Bool
  | [] => needle.isPrefixOf []
  | c :: rest => needle.isPrefixOf (c :: rest) || strInAux needle rest

/-- Python `needle in haystack` on strings. -/
def strIn (needle hay : String) : Bool := strInAux needle.data hay.data

/-- `get_var_desc` applied to a possibly-`None` Python string (e.g. the
`ins_target` flowing out of `get_target_var_desc`): `None in op_map` is
`False`, after which `None.startswith` raises `AttributeError`. -/
def getVarDescPy (targetVar : Option String) (tokenType : Option String)
    (deps : Option (List ScopeItem)) (pv : Option ProgramVersionE) :
    Except String String :=
  match targetVar with
  | none => .error "AttributeError: 'NoneType' object has no attribute 'startswith'"
  | some tv => .ok (get_var_desc tv tokenType deps pv)

/-- `parser.parse_rank_flag`.  The token lists it receives come from
`tokenize_pipe` (bare strings), so the loop body's `t.type`/`t.value`
accesses raise `AttributeError` whenever tokens are present. -/
def parse_rank_flag (tokens : List PyTok) (step : Int) (insType : InsType)
    (_insTarget : Option String) (deps : Option (List ScopeItem))
    (pv : Option ProgramVersionE) (templateId : String := "") :
    Except String (List Node) := do
  let actionText0 := pyTitle (pyReplaceChar insType.pyName '_' ' ')
  let varsExpanded ← tokens.mapM fun t => do
    if pv.isSome ∧ deps.isSome then do
      let ty ← t.ftype
      let v ← t.value
      if ty = "WORD" ∧ (strIn "GI_" v ∨ strIn "GC_" v) then
        pure (get_var_desc v (some ty) deps pv)
      else pure v
    else t.value
  let actionText :=
    if varsExpanded ≠ [] then actionText0 ++ ": " ++ pyJoin ", " varsExpanded
    else actionText0
  let desc := get_var_desc actionText none deps pv
  return [.raw { hdr := { step := step, insType := some insType.code, templateId := templateId },
                 raw := actionText, value := desc }]

/-- `parser.parse_sort`. -/
def parse_sort (tokens : List PyTok) (step : Int) (insType : InsType)
    (_insTarget : Option String) (_deps : Option (List ScopeItem))
    (_pv : Option ProgramVersionE) (templateId : String := "") :
    Except String (List Node) := do
  let vals ← tokens.mapM PyTok.value
  let text := "Sort: " ++ pyJoin " " vals
  return [.raw { hdr := { step := step, insType := some insType.code, templateId := templateId },
                 raw := "", value := text }]

/-- `parser.parse_mask`. -/
def parse_mask (tokens : List PyTok) (step : Int) (insType : InsType)
    (_insTarget : Option String) (_deps : Option (List ScopeItem))
    (_pv : Option ProgramVersionE) (templateId : String := "") :
    Except String (List Node) := do
  let vals ← tokens.mapM PyTok.value
  let text := "Mask: " ++ pyJoin " " vals
  return [.raw { hdr := { step := step, insType := some insType.code, templateId := templateId },
                 raw := "", value := text }]

/-- `parser.parse_empty`: opcodes 6 and 254 produce no nodes. -/
def parse_empty (_tokens : List PyTok) (_step : Int) (_insType : InsType)
    (_insTarget : Option String) (_deps : Option (List ScopeItem))
    (_pv : Option ProgramVersionE) (_templateId : String := "") :
    Except String (List Node) :=
  return []

/-- `parser.parse_set_string`: an `Assignment` whose expression is a
`SetString` function over the tokens. -/
def parse_set_string (tokens : List PyTok) (step : Int) (insType : InsType)
    (insTarget : Option String) (deps : Option (List ScopeItem))
    (pv : Option ProgramVersionE) (templateId : String := "") :
    Except String (List Node) := do
  let targetVal ← getVarDescPy insTarget none deps pv
  let args ← tokens.mapM fun t => do
    let v ← t.value
    let ty ← t.ftype
    pure ({ hdr := { step := step, insType := some insType.code },
            raw := v,
            value := if ty = "TARGET" then targetVal else get_var_desc v (some ty) deps pv,
            ntype := some ty } : RawLeaf)
  let concat : Node :=
    .funcN { hdr := { step := step, insType := some insType.code },
             name := "SetString", args := args }
  return [.assign { step := step, insType := some insType.code, templateId := templateId }
            insTarget concat none none none]

/-- `parser.parse_string_addition`: like `parse_set_string` but named
`StringAddition` and carrying the resolved target description. -/
def parse_string_addition (tokens : List PyTok) (step : Int) (insType : InsType)
    (insTarget : Option String) (deps : Option (List ScopeItem))
    (pv : Option ProgramVersionE) (templateId : String := "") :
    Except String (List Node) := do
  let targetVal ← getVarDescPy insTarget none deps pv
  let args ← tokens.mapM fun t => do
    let v ← t.value
    let ty ← t.ftype
    pure ({ hdr := { step := step, insType := some insType.code },
            raw := v,
            value := if ty = "TARGET" then targetVal else get_var_desc v (some ty) deps pv,
            ntype := some ty } : RawLeaf)
  let concat : Node :=
    .funcN { hdr := { step := step, insType := some insType.code },
             name := "StringAddition", args := args }
  return [.assign { step := step, insType := some insType.code, templateId := templateId }
            insTarget concat (some targetVal) none none]

/-- `parser.parse_date_diff`: two-arg `DateDifference` function node. -/
def parse_date_diff (tokens : List PyTok) (step : Int) (insType : InsType)
    (_insTarget : Option String) (_deps : Option (List ScopeItem))
    (_pv : Option ProgramVersionE) (templateId : String := "") :
    Except String (List Node) := do
  let (leftVal, rightVal) ←
    match tokens with
    | t0 :: t1 :: _ => do
      let v0 ← t0.value
      let v1 ← t1.value
      pure (v0, v1)
    | [t0] => do
      let v0 ← t0.value
      pure (v0, "")
    | [] => pure ("", "")
  let leftDesc := get_var_desc leftVal none none none
  let rightDesc := get_var_desc rightVal none none none
  let leftNode : RawLeaf :=
    { hdr := { step := step, insType := some insType.code }, raw := leftVal, value := leftDesc }
  let rightNode : RawLeaf :=
    { hdr := { step := step, insType := some insType.code }, raw := rightVal, value := rightDesc }
  let funcNode0 : Node :=
    .funcN { hdr := { step := step, insType := some insType.code, templateId := templateId },
             name := "DateDifference", args := [leftNode, rightNode] }
  let funcNode := funcNode0.withEnglish (render_node funcNode0)
  return [funcNode]

/-- `parser.parse_date_addition`. -/
def parse_date_addition (tokens : List PyTok) (step : Int) (insType : InsType)
    (_insTarget : Option String) (_deps : Option (List ScopeItem))
    (_pv : Option ProgramVersionE) (templateId : String := "") :
    Except String (List Node) := do
  let (dateVal, offsetVal) ←
    match tokens with
    | t0 :: t1 :: _ => do
      let v0 ← t0.value
      let v1 ← t1.value
      pure (v0, v1)
    | [t0] => do
      let v0 ← t0.value
      pure (v0, "")
    | [] => pure ("", "")
  let dateNode : RawLeaf :=
    { hdr := { step := step, insType := some insType.code, templateId := templateId },
      raw := dateVal, value := dateVal }
  let offsetNode : RawLeaf :=
    { hdr := { step := step, insType := some insType.code, templateId := templateId },
      raw := offsetVal, value := offsetVal }
  let funcNode0 : Node :=
    .funcN { hdr := { step := step, insType := some insType.code, templateId := templateId },
             name := "DateAddition", args := [dateNode, offsetNode] }
  let funcNode := funcNode0.withEnglish (render_node funcNode0)
  return [funcNode]

/-- `parser.parse_arithmetic`: strips a trailing `!<round>` token into
`round_spec`, then builds `Arithmetic{left, op, right}` from the first three
token values, falling back to a `Raw` join when fewer than three tokens
remain. -/
def parse_arithmetic (tokens : List PyTok) (step : Int) (insType : InsType)
    (_insTarget : Option String) (deps : Option (List ScopeItem))
    (pv : Option ProgramVersionE) (templateId : String := "") :
    Except String (List Node) := do
  let (roundSpec, toks) ←
    match tokens.getLast? with
    | some last => do
      let lv ← last.value
      if pyStartsWith lv "!" then pure ((some (pyDrop lv 1) : Option String), tokens.dropLast)
      else pure (none, tokens)
    | none => pure ((none : Option String), tokens)
  match toks with
  | t0 :: t1 :: t2 :: _ => do
    let leftVal ← t0.value
    let operator ← t1.value
    let rightVal ← t2.value
    let leftDesc := get_var_desc leftVal none deps pv
    let leftNode : RawLeaf :=
      { hdr := { step := step, insType := some insType.code, templateId := templateId },
        raw := leftVal, value := leftDesc }
    let rightDesc := get_var_desc rightVal none deps pv
    let rightNode : RawLeaf :=
      { hdr := { step := step, insType := some insType.code, templateId := templateId },
        raw := rightVal, value := rightDesc }
    let node0 : Node :=
      .arith { hdr := { step := step, insType := some insType.code, templateId := templateId },
               left := leftNode, operator := operator, right := rightNode,
               roundSpec := roundSpec }
    let node := node0.withEnglish (render_node node0)
    return [node]
  | _ => do
    let vals ← toks.mapM PyTok.value
    return [.raw { hdr := { step := step, insType := some insType.code, templateId := templateId },
                   raw := "", value := pyJoin " " vals }]

/-- The `friendly_map` in `parse_function`.  Its keys (`POWER`, `LOG`, …)
never equal any `InsType.name` (`INS_MATH_FUNC_LOG`, …), so the
`.title()`-ed enum name is always used. -/
def friendlyMap (name : String) : Option String :=
  match name with
  | "POWER" => some "Power"
  | "LOG" => some "Natural Log"
  | "LOG10" => some "Log Base 10"
  | "EXP" => some "Exponential"
  | "SQRT" => some "Square Root"
  | "COS" => some "Cosine"
  | "SIN" => some "Sine"
  | "TAN" => some "Tangent"
  | "COSH" => some "Hyperbolic Cosine"
  | "SINH" => some "Hyperbolic Sine"
  | "TANH" => some "Hyperbolic Tangent"
  | _ => none

/-- `parser.parse_function`: math/trig functions with optional `!<round>`. -/
def parse_function (tokens : List PyTok) (step : Int) (insType : InsType)
    (_insTarget : Option String) (_deps : Option (List ScopeItem))
    (_pv : Option ProgramVersionE) (templateId : String := "") :
    Except String (List Node) := do
  let (roundSpec, toks) ←
    match tokens.getLast? with
    | some last => do
      let lv ← last.value
      if pyStartsWith lv "!" then pure ((some (pyDrop lv 1) : Option String), tokens.dropLast)
      else pure (none, tokens)
    | none => pure ((none : Option String), tokens)
  let args ← toks.mapM fun t => do
    let v ← t.value
    pure ({ hdr := { step := step, insType := some insType.code, templateId := templateId },
            raw := v, value := v } : RawLeaf)
  let displayName := (friendlyMap insType.pyName).getD (pyTitle insType.pyName)
  let node0 : Node :=
    .funcN { hdr := { step := step, insType := some insType.code, templateId := templateId },
             name := displayName, args := args, roundSpec := roundSpec }
  let node := node0.withEnglish (render_node node0)
  return [node]

/-- `parser.parse_call`: a `CallOut` function node; each argument's `value`
is the token's `description` attribute (`None` for scan `VAR` tokens, which
no downstream consumer distinguishes from the `getattr` default `""`). -/
def parse_call (tokens : List PyTok) (step : Int) (insType : InsType)
    (_insTarget : Option String) (_deps : Option (List ScopeItem))
    (_pv : Option ProgramVersionE) (_templateId : String := "") :
    Except String (List Node) := do
  let args ← tokens.mapM fun t => do
    let v ← t.value
    let ty ← t.ftype
    pure ({ hdr := { step := step, insType := some insType.code },
            raw := v, value := t.descrOrEmpty, ntype := some ty } : RawLeaf)
  let node0 : Node :=
    .funcN { hdr := { step := step, insType := some insType.code },
             name := "CallOut", args := args }
  let node := node0.withEnglish (render_node node0)
  return [node]

/-- `parser.parse_data_source`. -/
def parse_data_source (tokens : List PyTok) (r : RawIns)
    (_deps : Option (List ScopeItem)) (_pv : Option ProgramVersionE)
    (templateId : String := "") : Except String (List Node) := do
  let step := r.n
  let insType ← insTypeStrict r.t
  let args ← tokens.mapM fun tok => do
    let v ← tok.value
    pure ({ hdr := { step := step, insType := some insType.code, templateId := templateId },
            raw := v, value := v } : RawLeaf)
  let node0 : Node :=
    .funcN { hdr := { step := step, insType := some insType.code },
             name := "DataSource", args := args }
  let node := node0.withEnglish (render_node node0)
  return [node]

/-- `parser.parse_type_check` (opcodes 95/98/99).  After the variable token
is extracted, the function evaluates the literal
`check_map = {InsType.IS_DATE: "date", …}`; the enum has no members named
`IS_DATE`/`IS_NUMERIC`/`IS_ALPHA` (they are `INS_IS_*`), so this raises
`AttributeError` on every call and the remainder of the function — the
`check_type` lookup, the `seq_t/seq_f > 0` jump guards and the
`If(TypeCheck)` construction — is unreachable. -/
def parse_type_check (tokens : List PyTok) (r : RawIns)
    (deps : Option (List ScopeItem)) (pv : Option ProgramVersionE)
    (templateId : String := "") : Except String (List Node) := do
  let step := r.n
  let insType ← insTypeStrict r.t
  let leftRaw ←
    match tokens with
    | [] => pure ""
    | t0 :: rest => do
      let v0 ← t0.value
      if pyStartsWith v0 "~" ∧ rest ≠ [] then
        match rest with
        | t1 :: _ => t1.value
        | [] => pure v0
      else pure v0
  let leftDesc := get_var_desc leftRaw none deps pv
  let _leftNode : RawLeaf :=
    { hdr := { step := step, insType := some insType.code, templateId := templateId,
               stepType := some insType.code },
      raw := leftRaw, value := leftDesc }
  .error "AttributeError: IS_DATE"

/-- The parser selected by `parser.parse`'s `dispatch_map`. -/
inductive PKind where
  | arith | ifP | call | sort | mask | setString | empty | strConcat
  | dateDiff | dateAdd | funcP | dataSource | rankFlag | typeCheck
  deriving Repr, DecidableEq

/-- `parser.parse`'s `dispatch_map` as a function: parser kind and template
id per instruction type; instruction types absent from the map take the
fallback `Raw` path. -/
def parseDispatch : InsType → Option (PKind × String)
  | .DEF_INS_TYPE_ARITHEMETIC => some (.arith, "ASSIGNMENT")
  | .DEF_INS_TYPE_NUMERIC_IF => some (.ifP, "IF_COMPARE")
  | .DEF_INS_TYPE_CALL => some (.call, "FUNCTION_CALL")
  | .SORT => some (.sort, "FUNCTION_CALL")
  | .DEF_INS_TYPE_MASK => some (.mask, "MASK")
  | .SET_STRING => some (.setString, "ASSIGNMENT")
  | .EMPTY => some (.empty, "EMPTY")
  | .INS_STR_CONCAT => some (.strConcat, "STRING_CONCAT")
  | .DATE_DIFF_DAYS => some (.dateDiff, "DATE_DIFF")
  | .DATE_DIFF_MONTHS => some (.dateDiff, "DATE_DIFF")
  | .DATE_DIFF_YEARS => some (.dateDiff, "DATE_DIFF")
  | .INS_DATE_ADDITION => some (.dateAdd, "DATE_DIFF")
  | .INS_MATH_FUNC_EXP => some (.funcP, "FUNCTION_CALL")
  | .INS_MATH_FUNC_LOG => some (.funcP, "FUNCTION_CALL")
  | .INS_MATH_FUNC_LOG10 => some (.funcP, "FUNCTION_CALL")
  | .INS_MATH_FUNC_EXPE => some (.funcP, "FUNCTION_CALL")
  | .INS_MATH_FUNC_SQRT => some (.funcP, "FUNCTION_CALL")
  | .INS_TRIG_FUNC_COS => some (.funcP, "FUNCTION_CALL")
  | .INS_TRIG_FUNC_SIN => some (.funcP, "FUNCTION_CALL")
  | .INS_TRIG_FUNC_TAN => some (.funcP, "FUNCTION_CALL")
  | .INS_TRIG_FUNC_COSH => some (.funcP, "FUNCTION_CALL")
  | .INS_TRIG_FUNC_SINH => some (.funcP, "FUNCTION_CALL")
  | .INS_TRIG_FUNC_TANH => some (.funcP, "FUNCTION_CALL")
  | .INS_QUERY_DATA_SOURCE => some (.dataSource, "QUERY_DATA_SOURCE")
  | .INS_RANK_CATEGORY_INSTANCE => some (.rankFlag, "RANK_FLAG")
  | .INS_RANK_CATEGORY_AVAILABLE => some (.rankFlag, "RANK_ACROSS_CATEGORY_ALL_AVAILABLE_ALT")
  | .DEF_INS_TYPE_SET_UNDERWRITING_TO_FAIL => some (.empty, "SET_UNDERWRITING_TO_FAIL")
  | .INS_IS_DATE => some (.typeCheck, "IS_DATE")
  | .INS_IS_NUMERIC => some (.typeCheck, "IS_NUMERIC")
  | .INS_IS_ALPHA => some (.typeCheck, "IS_ALPHA")
  | _ => none

/-- `parser.parse`, the dispatcher.  In order: (1) any `#`/`^`/`+` in the
body of a dispatch-mapped instruction routes to `decode_mif`; (2) a plain
numeric IF goes to `parse_if`; (3) `parse_data_source`/`parse_type_check`
receive the raw instruction (the `parse_if_date` member of that tuple has no
dispatch entry); (4) the remaining parsers get the resolved target, and an
`Assignment` head node is given `next_true`/`next_false` single-`Jump` lists
carrying the *raw* `seq_t`/`seq_f` values and re-rendered; (5) unmapped
instruction types produce one fallback `Raw` node.  `MULTI_IF_SYMBOL = "#"`
(`defs.py`; `decode_mif.py` imports it from a `defs_legacy` module that is
not under `src/` — the spec's §4.5 confirms the `#` marker). -/
def parse (tokens : List PyTok) (r : RawIns) (deps : Option (List ScopeItem))
    (pv : Option ProgramVersionE) (depItem : Option ScopeItem := none) :
    Except String (List Node) := do
  let insType := getInsTypeDef (some r.t)
  let step := r.n
  let insStr := r.ins
  match parseDispatch insType with
  | some (pk, templateId) =>
    if pyContains insStr '#' ∨ pyContains insStr '^' ∨ pyContains insStr '+' then
      decode_mif r deps pv templateId
    else if insType = .DEF_INS_TYPE_NUMERIC_IF then
      parse_if tokens r deps pv templateId
    else if pk = .ifP ∨ pk = .dataSource ∨ pk = .typeCheck then
      match pk with
      | .dataSource => parse_data_source tokens r deps pv templateId
      | .typeCheck => parse_type_check tokens r deps pv templateId
      | _ => parse_if tokens r deps pv templateId
    else do
      let insTarget ← get_target_var_desc r.insTar depItem
      let astNodes ←
        match pk with
        | .arith => parse_arithmetic tokens step insType insTarget deps pv templateId
        | .call => parse_call tokens step insType insTarget deps pv templateId
        | .sort => parse_sort tokens step insType insTarget deps pv templateId
        | .mask => parse_mask tokens step insType insTarget deps pv templateId
        | .setString => parse_set_string tokens step insType insTarget deps pv templateId
        | .empty => parse_empty tokens step insType insTarget deps pv templateId
        | .strConcat => parse_string_addition tokens step insType insTarget deps pv templateId
        | .dateDiff => parse_date_diff tokens step insType insTarget deps pv templateId
        | .dateAdd => parse_date_addition tokens step insType insTarget deps pv templateId
        | .funcP => parse_function tokens step insType insTarget deps pv templateId
        | .rankFlag => parse_rank_flag tokens step insType insTarget deps pv templateId
        | _ => parse_rank_flag tokens step insType insTarget deps pv templateId
      match astNodes with
      | .assign h var ex tg _ _ :: rest =>
        let nt : List Node :=
          [.jump { hdr := { step := step, insType := some insType.code, templateId := "JUMP" },
                   target := r.seqT }]
        let nf : List Node :=
          [.jump { hdr := { step := step, insType := some insType.code, templateId := "JUMP" },
                   target := r.seqF }]
        let n1 : Node := .assign h var ex tg (some nt) (some nf)
        let n2 := n1.withEnglish (render_node n1)
        pure (n2 :: rest)
      | _ => pure astNodes
  | none =>
    let desc := get_var_desc insStr none deps pv
    pure [.raw { hdr := { step := step, insType := some insType.code },
                 raw := insStr, value := desc }]

/-- `decoder.decode_ins`: tokenize, then parse. -/
def decode_ins (r : RawIns) (deps : Option (List ScopeItem) := none)
    (pv : Option ProgramVersionE := none) (depItem : Option ScopeItem := none) :
    Except String (List Node) := do
  let insStr := r.ins
  let insType := getInsTypeDef (some r.t)
  let insTarget := r.insTar
  let tokens ← tokenize insStr insType insTarget
  parse tokens r deps pv depItem

/-! ## Tree driver
(`repository/program_version_repository.py`, `process_all_instructions`) -/

/-- An `Instruction` model together with its mutable `ast` attachment. -/
structure InstrSlot where
  ins : RawIns
  ast : Option (List Node) := none
  deriving Repr

/-- One direct algorithm step (`process_all_instructions` lines 269-289):
skip when `ast` is already present; on success store the node list; on an
exception store exactly one `Raw` node valued `"Repository ERROR: <msg>"`
(with `template_id` left at its default). -/
def decodeMainStep (depVars : List ScopeItem) (pv : ProgramVersionE)
    (slot : InstrSlot) : InstrSlot :=
  match slot.ast with
  | some _ => slot
  | none =>
    match decode_ins slot.ins (some depVars) (some pv) none with
    | .ok ns => { slot with ast := some ns }
    | .error e =>
      { slot with ast := some [.raw
          { hdr := { step := slot.ins.n, insType := some slot.ins.t },
            raw := "", value := "Repository ERROR: " ++ e }] }

/-- One dependency-chain step (`process_all_instructions` lines 301-309):
same skip/success behaviour, but an exception stores the *empty* list
(`except Exception: instr.ast = []`) — no `Repository ERROR` node. -/
def decodeDepStep (depVars : List ScopeItem) (pv : ProgramVersionE)
    (curDep : ScopeItem) (slot : InstrSlot) : InstrSlot :=
  match slot.ast with
  | some _ => slot
  | none =>
    match decode_ins slot.ins (some depVars) (some pv) (some curDep) with
    | .ok ns => { slot with ast := some ns }
    | .error _ => { slot with ast := some [] }

/-- A `DependencyBase` with its nested `dependency_vars` and `steps`, i.e.
one node of the dependency chain the driver walks. -/
inductive DepChain where
  | mk (info : DepE) (steps : List InstrSlot) (children : List DepChain)
  deriving Repr

def DepChain.info : DepChain → DepE
  | .mk i _ _ => i

def DepChain.steps : DepChain → List InstrSlot
  | .mk _ s _ => s

def DepChain.children : DepChain → List DepChain
  | .mk _ _ c => c

mutual
/-- The effect of the driver's BFS queue on one reachable dependency: its
steps are decoded with its own `dependency_vars` as scope and itself as
`dep_item`; of its children only `CalculatedVariable`s (discriminated by
`ib_type ∈ {"10","3"}`) are enqueued and processed in turn.  The queue order
(BFS with `pop(0)`) does not affect the per-instruction results, which
depend only on each instruction's own scope. -/
def processDepChain (pv : ProgramVersionE) : DepChain → DepChain
  | .mk info steps children =>
    let scope := children.map (fun c => ScopeItem.dep c.info)
    .mk info (steps.map (decodeDepStep scope pv (ScopeItem.dep info)))
      (processCalcChildren pv children)

/-- Children handling: only `CalculatedVariable` children are enqueued. -/
def processCalcChildren (pv : ProgramVersionE) : List DepChain → List DepChain
  | [] => []
  | c :: rest =>
    (if c.info.isCalculatedVariable then processDepChain pv c else c) ::
      processCalcChildren pv rest
end

/-- An `Algorithm`: direct steps plus its dependency chain. -/
structure AlgorithmChain where
  mainSteps : List InstrSlot
  depVars : List DepChain
  deriving Repr

/-- `process_all_instructions` restricted to one algorithm: direct steps are
decoded against the algorithm's `dependency_vars` with no `dep_item`, then
every top-level dependency is processed through the queue. -/
def processAlgorithm (pv : ProgramVersionE) (a : AlgorithmChain) : AlgorithmChain :=
  let scope := a.depVars.map (fun c => ScopeItem.dep c.info)
  { mainSteps := a.mainSteps.map (decodeMainStep scope pv),
    depVars := a.depVars.map (processDepChain pv) }

/-- `process_all_instructions` over a program version's algorithm
sequences. -/
def process_all_instructions (pv : ProgramVersionE) (algs : List AlgorithmChain) :
    List AlgorithmChain :=
  algs.map (processAlgorithm pv)

/-! ## Checker definitions and helper lemmas for the claim theorems -/

/-- Node carries the instruction's step and opcode. -/
def nodeStamp (step code : Int) (n : Node) : Bool :=
  n.hdrOf.step == step && n.hdrOf.insType == some code

/-- The `If`-branch invariant of the spec: each branch has at most one
element and any element is a `Jump`. -/
def ifInvB : Node → Bool
  | .ifN _ tb fb _ =>
    decide (tb.length ≤ 1) && decide (fb.length ≤ 1) && tb.all Node.isJump && fb.all Node.isJump
  | _ => true

/-- Stamp plus `If` invariant. -/
def goodNode (step code : Int) (n : Node) : Bool :=
  nodeStamp step code n && ifInvB n

theorem exBind_ok {α β : Type} {x : Except String α} {f : α → Except String β} {b : β}
    (h : x >>= f = .ok b) : ∃ a, x = .ok a ∧ f a = .ok b := by
  cases x with
  | error e => simp [Bind.bind, Except.bind] at h
  | ok a => exact ⟨a, rfl, h⟩

theorem exPure_ok {α : Type} {a b : α} (h : (pure a : Except String α) = .ok b) : a = b := by
  simpa [pure, Except.pure] using h

theorem exBindOkRed {α β : Type} (a : α) (f : α → Except String β) :
    (Except.ok a >>= f) = f a := rfl

theorem exBindPure {α β : Type} (a : α) (f : α → Except String β) :
    ((pure a : Except String α) >>= f) = f a := rfl

theorem withEnglish_hdr_step (n : Node) (e : String) :
    (n.withEnglish e).hdrOf.step = n.hdrOf.step := by
  cases n <;> rfl

theorem withEnglish_hdr_insType (n : Node) (e : String) :
    (n.withEnglish e).hdrOf.insType = n.hdrOf.insType := by
  cases n <;> rfl

theorem withEnglish_ifInvB (n : Node) (e : String) :
    ifInvB (n.withEnglish e) = ifInvB n := by
  cases n <;> rfl

theorem withEnglish_goodNode (n : Node) (e : String) (step code : Int) :
    goodNode step code (n.withEnglish e) = goodNode step code n := by
  cases n <;> rfl

set_option maxHeartbeats 1000000 in
/-- Any member returned by `insTypeOfCode` has that numeric code. -/
theorem insTypeOfCode_code {v : Int} {it : InsType} (h : insTypeOfCode v = some it) :
    it.code = v := by
  unfold insTypeOfCode at h
  split at h
  all_goals first
    | exact Option.noConfusion h
    | (injection h with h2; subst h2; rfl)

/-- Whether an `Except` value is a success. -/
def exIsOk {α : Type} : Except String α → Bool
  | .ok _ => true
  | .error _ => false

/-- Every comparison collected by `mifCollect` carries `cond_op = joiner`. -/
theorem mifCollect_condOp (r : RawIns) (deps : Option (List ScopeItem))
    (pv : Option ProgramVersionE) (joiner : String) :
    ∀ (frags : List String) (acc res : List CompareS),
      (∀ c ∈ acc, c.condOp = some joiner) →
      mifCollect r deps pv joiner frags acc = .ok res →
      ∀ c ∈ res, c.condOp = some joiner := by
  intro frags
  induction frags with
  | nil =>
    intro acc res hacc h
    unfold mifCollect at h
    cases h
    exact hacc
  | cons frag rest ih =>
    intro acc res hacc h
    unfold mifCollect at h
    obtain ⟨toks, _ht, h⟩ := exBind_ok h
    obtain ⟨nodes, _hn, h⟩ := exBind_ok h
    match nodes with
    | [] => simp at h
    | n0 :: ntail =>
      match n0 with
      | .ifN hd tb fb cond =>
        match cond with
        | some (.cmp c) =>
          refine ih (acc ++ [{ c with condOp := some joiner }]) res ?_ h
          intro c' hc'
          rcases List.mem_append.mp hc' with hmem | hmem
          · exact hacc c' hmem
          · rcases List.mem_singleton.mp hmem with rfl
            rfl
        | some (.multi _) => exact ih acc res hacc h
        | some (.tcheck _) => exact ih acc res hacc h
        | none => exact ih acc res hacc h
      | .raw _ => exact ih acc res hacc h
      | .cmp _ => exact ih acc res hacc h
      | .multi _ => exact ih acc res hacc h
      | .tcheck _ => exact ih acc res hacc h
      | .jump _ => exact ih acc res hacc h
      | .arith _ => exact ih acc res hacc h
      | .funcN _ => exact ih acc res hacc h
      | .assign _ _ _ _ _ _ => exact ih acc res hacc h

/-- Shape of every successful `decode_mif` result: one `If` node over a
`MultiCondition`, stamped with the instruction's step and opcode, joiner
chosen by `mifJoinerPair` on the multi-body, all conditions carrying
`cond_op = joiner`, and `Jump` branches exactly for `seq > 0`. -/
theorem decode_mif_shape (r : RawIns) (deps : Option (List ScopeItem))
    (pv : Option ProgramVersionE) (tid : String) (ns : List Node)
    (h : decode_mif r deps pv tid = .ok ns) :
    ∃ hd tb fb m, ns = [.ifN hd tb fb (some (.multi m))] ∧
      hd.step = r.n ∧ hd.insType = some r.t ∧
      m.joiner = (mifJoinerPair (mifSplit r.ins).2).2 ∧
      (∀ c ∈ m.conditions, c.condOp = some m.joiner) ∧
      tb = (match r.seqT with
            | some v =>
              if v > 0 then
                [.jump { hdr := { step := r.n, insType := some r.t, stepType := some r.t,
                                  templateId := "JUMP" }, target := some v }]
              else []
            | none => []) ∧
      fb = (match r.seqF with
            | some v =>
              if v > 0 then
                [.jump { hdr := { step := r.n, insType := some r.t, stepType := some r.t,
                                  templateId := "JUMP" }, target := some v }]
              else []
            | none => []) := by
  unfold decode_mif at h
  dsimp only at h
  rcases hsp : mifSplit r.ins with ⟨bp, mb⟩
  rw [hsp] at h
  rcases hjp : mifJoinerPair mb with ⟨sc, joiner⟩
  rw [hjp] at h
  dsimp only at h
  obtain ⟨compares, hc, h⟩ := exBind_ok h
  replace h := exPure_ok h
  subst h
  refine ⟨_, _, _, _, rfl, rfl, rfl, ?_, ?_, rfl, rfl⟩
  · simp [hsp, hjp]
  · exact mifCollect_condOp r deps pv joiner _ [] compares (by simp) hc

/-- Shape of every successful `parse_if` result: one `If` node over a
`Compare`, stamped with the instruction's step and opcode, with a single
`Jump` branch for every non-`None` sequence value (zero included). -/
theorem parse_if_shape (tokens : List PyTok) (r : RawIns)
    (deps : Option (List ScopeItem)) (pv : Option ProgramVersionE) (tid : String)
    (ns : List Node) (h : parse_if tokens r deps pv tid = .ok ns) :
    ∃ it0 hd c, insTypeOfCode r.t = some it0 ∧
      hd.step = r.n ∧ hd.insType = some it0.code ∧
      ns = [.ifN hd
        (match r.seqT with
         | some v => [.jump { hdr := { step := r.n, insType := some it0.code,
                                       templateId := "JUMP" }, target := some v }]
         | none => [])
        (match r.seqF with
         | some v => [.jump { hdr := { step := r.n, insType := some it0.code,
                                       templateId := "JUMP" }, target := some v }]
         | none => [])
        (some (.cmp c))] := by
  unfold parse_if at h
  obtain ⟨it0, hit, h⟩ := exBind_ok h
  have hit' : insTypeOfCode r.t = some it0 := by
    unfold insTypeStrict at hit
    cases hx : insTypeOfCode r.t with
    | none => rw [hx] at hit; simp at hit
    | some it1 => rw [hx] at hit; cases hit; rfl
  dsimp only at h
  rcases hps : pySplitChar r.ins '|' with _ | ⟨a, _ | ⟨b, _ | ⟨c, _ | ⟨d, e⟩⟩⟩⟩
  all_goals
    rw [hps] at h
    dsimp only at h
    by_cases htid : tid ≠ ""
    · rw [if_pos htid] at h
      dsimp only [Node.withEnglish] at h
      replace h := exPure_ok h
      subst h
      exact ⟨it0, _, _, hit', rfl, rfl, rfl⟩
    · rw [if_neg htid] at h
      replace h := exPure_ok h
      subst h
      exact ⟨it0, _, _, hit', rfl, rfl, rfl⟩

/-- `goodNode` splits into the `If` invariant and the stamp. -/
theorem all_goodNode_sub {ns : List Node} {a b : Int} (h : ns.all (goodNode a b) = true) :
    ns.all ifInvB = true ∧ ns.all (nodeStamp a b) = true := by
  induction ns with
  | nil => exact ⟨rfl, rfl⟩
  | cons n t ih =>
    simp only [List.all_cons, Bool.and_eq_true] at h ⊢
    obtain ⟨h1, h2⟩ := h
    obtain ⟨ih1, ih2⟩ := ih h2
    simp only [goodNode, Bool.and_eq_true] at h1
    exact ⟨⟨h1.2, ih1⟩, ⟨h1.1, ih2⟩⟩

theorem parse_sort_good (tokens : List PyTok) (step : Int) (it : InsType)
    (tgt : Option String) (deps : Option (List ScopeItem)) (pv : Option ProgramVersionE)
    (tid : String) (ns : List Node)
    (h : parse_sort tokens step it tgt deps pv tid = .ok ns) :
    ns.all (goodNode step it.code) = true ∧ ns ≠ [] := by
  unfold parse_sort at h
  obtain ⟨vals, _h1, h⟩ := exBind_ok h
  try dsimp only at h
  replace h := exPure_ok h
  subst h
  exact ⟨by simp [goodNode, nodeStamp, ifInvB, Node.hdrOf], by simp⟩

theorem parse_mask_good (tokens : List PyTok) (step : Int) (it : InsType)
    (tgt : Option String) (deps : Option (List ScopeItem)) (pv : Option ProgramVersionE)
    (tid : String) (ns : List Node)
    (h : parse_mask tokens step it tgt deps pv tid = .ok ns) :
    ns.all (goodNode step it.code) = true ∧ ns ≠ [] := by
  unfold parse_mask at h
  obtain ⟨vals, _h1, h⟩ := exBind_ok h
  try dsimp only at h
  replace h := exPure_ok h
  subst h
  exact ⟨by simp [goodNode, nodeStamp, ifInvB, Node.hdrOf], by simp⟩

theorem parse_empty_good (tokens : List PyTok) (step : Int) (it : InsType)
    (tgt : Option String) (deps : Option (List ScopeItem)) (pv : Option ProgramVersionE)
    (tid : String) (ns : List Node)
    (h : parse_empty tokens step it tgt deps pv tid = .ok ns) : ns = [] := by
  unfold parse_empty at h
  exact (exPure_ok h).symm

theorem parse_rank_flag_good (tokens : List PyTok) (step : Int) (it : InsType)
    (tgt : Option String) (deps : Option (List ScopeItem)) (pv : Option ProgramVersionE)
    (tid : String) (ns : List Node)
    (h : parse_rank_flag tokens step it tgt deps pv tid = .ok ns) :
    ns.all (goodNode step it.code) = true ∧ ns ≠ [] := by
  unfold parse_rank_flag at h
  obtain ⟨vals, _h1, h⟩ := exBind_ok h
  dsimp only at h
  replace h := exPure_ok h
  subst h
  exact ⟨by simp [goodNode, nodeStamp, ifInvB, Node.hdrOf], by simp⟩

theorem parse_set_string_good (tokens : List PyTok) (step : Int) (it : InsType)
    (tgt : Option String) (deps : Option (List ScopeItem)) (pv : Option ProgramVersionE)
    (tid : String) (ns : List Node)
    (h : parse_set_string tokens step it tgt deps pv tid = .ok ns) :
    ns.all (goodNode step it.code) = true ∧ ns ≠ [] := by
  unfold parse_set_string at h
  obtain ⟨tv, _h1, h⟩ := exBind_ok h
  dsimp only at h
  obtain ⟨args, _h2, h⟩ := exBind_ok h
  try dsimp only at h
  replace h := exPure_ok h
  subst h
  exact ⟨by simp [goodNode, nodeStamp, ifInvB, Node.hdrOf], by simp⟩

theorem parse_string_addition_good (tokens : List PyTok) (step : Int) (it : InsType)
    (tgt : Option String) (deps : Option (List ScopeItem)) (pv : Option ProgramVersionE)
    (tid : String) (ns : List Node)
    (h : parse_string_addition tokens step it tgt deps pv tid = .ok ns) :
    ns.all (goodNode step it.code) = true ∧ ns ≠ [] := by
  unfold parse_string_addition at h
  obtain ⟨tv, _h1, h⟩ := exBind_ok h
  dsimp only at h
  obtain ⟨args, _h2, h⟩ := exBind_ok h
  try dsimp only at h
  replace h := exPure_ok h
  subst h
  exact ⟨by simp [goodNode, nodeStamp, ifInvB, Node.hdrOf], by simp⟩

theorem parse_date_diff_good (tokens : List PyTok) (step : Int) (it : InsType)
    (tgt : Option String) (deps : Option (List ScopeItem)) (pv : Option ProgramVersionE)
    (tid : String) (ns : List Node)
    (h : parse_date_diff tokens step it tgt deps pv tid = .ok ns) :
    ns.all (goodNode step it.code) = true ∧ ns ≠ [] := by
  unfold parse_date_diff at h
  rcases tokens with _ | ⟨t0, _ | ⟨t1, tail⟩⟩ <;> dsimp only at h
  · obtain ⟨y, _hy, h⟩ := exBind_ok h
    obtain ⟨lv, rv⟩ := y
    dsimp only at h
    replace h := exPure_ok h
    subst h
    refine ⟨?_, by simp⟩
    simp only [List.all_cons, List.all_nil, Bool.and_true, withEnglish_goodNode]
    simp [goodNode, nodeStamp, ifInvB, Node.hdrOf]
  · obtain ⟨v0, _h2, h⟩ := exBind_ok h
    obtain ⟨y, _hy, h⟩ := exBind_ok h
    obtain ⟨lv, rv⟩ := y
    dsimp only at h
    replace h := exPure_ok h
    subst h
    refine ⟨?_, by simp⟩
    simp only [List.all_cons, List.all_nil, Bool.and_true, withEnglish_goodNode]
    simp [goodNode, nodeStamp, ifInvB, Node.hdrOf]
  · obtain ⟨v0, _h2, h⟩ := exBind_ok h
    obtain ⟨v1, _h3, h⟩ := exBind_ok h
    obtain ⟨y, _hy, h⟩ := exBind_ok h
    obtain ⟨lv, rv⟩ := y
    dsimp only at h
    replace h := exPure_ok h
    subst h
    refine ⟨?_, by simp⟩
    simp only [List.all_cons, List.all_nil, Bool.and_true, withEnglish_goodNode]
    simp [goodNode, nodeStamp, ifInvB, Node.hdrOf]

theorem parse_date_addition_good (tokens : List PyTok) (step : Int) (it : InsType)
    (tgt : Option String) (deps : Option (List ScopeItem)) (pv : Option ProgramVersionE)
    (tid : String) (ns : List Node)
    (h : parse_date_addition tokens step it tgt deps pv tid = .ok ns) :
    ns.all (goodNode step it.code) = true ∧ ns ≠ [] := by
  unfold parse_date_addition at h
  rcases tokens with _ | ⟨t0, _ | ⟨t1, tail⟩⟩ <;> dsimp only at h
  · obtain ⟨y, _hy, h⟩ := exBind_ok h
    obtain ⟨lv, rv⟩ := y
    dsimp only at h
    replace h := exPure_ok h
    subst h
    refine ⟨?_, by simp⟩
    simp only [List.all_cons, List.all_nil, Bool.and_true, withEnglish_goodNode]
    simp [goodNode, nodeStamp, ifInvB, Node.hdrOf]
  · obtain ⟨v0, _h2, h⟩ := exBind_ok h
    obtain ⟨y, _hy, h⟩ := exBind_ok h
    obtain ⟨lv, rv⟩ := y
    dsimp only at h
    replace h := exPure_ok h
    subst h
    refine ⟨?_, by simp⟩
    simp only [List.all_cons, List.all_nil, Bool.and_true, withEnglish_goodNode]
    simp [goodNode, nodeStamp, ifInvB, Node.hdrOf]
  · obtain ⟨v0, _h2, h⟩ := exBind_ok h
    obtain ⟨v1, _h3, h⟩ := exBind_ok h
    obtain ⟨y, _hy, h⟩ := exBind_ok h
    obtain ⟨lv, rv⟩ := y
    dsimp only at h
    replace h := exPure_ok h
    subst h
    refine ⟨?_, by simp⟩
    simp only [List.all_cons, List.all_nil, Bool.and_true, withEnglish_goodNode]
    simp [goodNode, nodeStamp, ifInvB, Node.hdrOf]

theorem parse_arithmetic_good (tokens : List PyTok) (step : Int) (it : InsType)
    (tgt : Option String) (deps : Option (List ScopeItem)) (pv : Option ProgramVersionE)
    (tid : String) (ns : List Node)
    (h : parse_arithmetic tokens step it tgt deps pv tid = .ok ns) :
    ns.all (goodNode step it.code) = true ∧ ns ≠ [] := by
  unfold parse_arithmetic at h
  rcases hg : tokens.getLast? with _ | last <;> rw [hg] at h <;>
    dsimp only [exBindPure] at h
  · split at h
    · obtain ⟨lv, _h2, h⟩ := exBind_ok h
      try dsimp only at h
      obtain ⟨ov, _h3, h⟩ := exBind_ok h
      try dsimp only at h
      obtain ⟨rv, _h4, h⟩ := exBind_ok h
      try dsimp only at h
      replace h := exPure_ok h
      subst h
      refine ⟨?_, by simp⟩
      simp only [List.all_cons, List.all_nil, Bool.and_true, withEnglish_goodNode]
      simp [goodNode, nodeStamp, ifInvB, Node.hdrOf]
    · obtain ⟨vals, _h2, h⟩ := exBind_ok h
      try dsimp only at h
      replace h := exPure_ok h
      subst h
      exact ⟨by simp [goodNode, nodeStamp, ifInvB, Node.hdrOf], by simp⟩
  · obtain ⟨lv, _h1, h⟩ := exBind_ok h
    try dsimp only [exBindPure] at h
    split at h <;> split at h
    all_goals
      first
      | (obtain ⟨lv2, _h2, h⟩ := exBind_ok h
         try dsimp only at h
         obtain ⟨ov2, _h3, h⟩ := exBind_ok h
         try dsimp only at h
         obtain ⟨rv2, _h4, h⟩ := exBind_ok h
         try dsimp only at h
         replace h := exPure_ok h
         subst h
         refine ⟨?_, by simp⟩
         simp only [List.all_cons, List.all_nil, Bool.and_true, withEnglish_goodNode]
         simp [goodNode, nodeStamp, ifInvB, Node.hdrOf])
      | (obtain ⟨vals, _h2, h⟩ := exBind_ok h
         try dsimp only at h
         replace h := exPure_ok h
         subst h
         exact ⟨by simp [goodNode, nodeStamp, ifInvB, Node.hdrOf], by simp⟩)

theorem parse_function_good (tokens : List PyTok) (step : Int) (it : InsType)
    (tgt : Option String) (deps : Option (List ScopeItem)) (pv : Option ProgramVersionE)
    (tid : String) (ns : List Node)
    (h : parse_function tokens step it tgt deps pv tid = .ok ns) :
    ns.all (goodNode step it.code) = true ∧ ns ≠ [] := by
  unfold parse_function at h
  rcases hg : tokens.getLast? with _ | last <;> rw [hg] at h <;>
    dsimp only [exBindPure] at h
  · obtain ⟨args, _h1, h⟩ := exBind_ok h
    try dsimp only at h
    replace h := exPure_ok h
    subst h
    refine ⟨?_, by simp⟩
    simp only [List.all_cons, List.all_nil, Bool.and_true, withEnglish_goodNode]
    simp [goodNode, nodeStamp, ifInvB, Node.hdrOf]
  · obtain ⟨lv, _h1, h⟩ := exBind_ok h
    try dsimp only [exBindPure] at h
    split at h
    all_goals
      obtain ⟨args, _h2, h⟩ := exBind_ok h
      try dsimp only at h
      replace h := exPure_ok h
      subst h
      refine ⟨?_, by simp⟩
      simp only [List.all_cons, List.all_nil, Bool.and_true, withEnglish_goodNode]
      simp [goodNode, nodeStamp, ifInvB, Node.hdrOf]

theorem parse_call_good (tokens : List PyTok) (step : Int) (it : InsType)
    (tgt : Option String) (deps : Option (List ScopeItem)) (pv : Option ProgramVersionE)
    (tid : String) (ns : List Node)
    (h : parse_call tokens step it tgt deps pv tid = .ok ns) :
    ns.all (goodNode step it.code) = true ∧ ns ≠ [] := by
  unfold parse_call at h
  obtain ⟨args, _h1, h⟩ := exBind_ok h
  try dsimp only at h
  replace h := exPure_ok h
  subst h
  refine ⟨?_, by simp⟩
  simp only [List.all_cons, List.all_nil, Bool.and_true, withEnglish_goodNode]
  simp [goodNode, nodeStamp, ifInvB, Node.hdrOf]

theorem parse_data_source_good (tokens : List PyTok) (r : RawIns)
    (deps : Option (List ScopeItem)) (pv : Option ProgramVersionE) (tid : String)
    (ns : List Node) (h : parse_data_source tokens r deps pv tid = .ok ns) :
    ns.all (goodNode r.n r.t) = true ∧ ns ≠ [] := by
  unfold parse_data_source at h
  obtain ⟨it0, hit, h⟩ := exBind_ok h
  have hit' : insTypeOfCode r.t = some it0 := by
    unfold insTypeStrict at hit
    cases hx : insTypeOfCode r.t with
    | none => rw [hx] at hit; simp at hit
    | some it1 => rw [hx] at hit; cases hit; rfl
  have hc := insTypeOfCode_code hit'
  try dsimp only at h
  obtain ⟨args, _h1, h⟩ := exBind_ok h
  try dsimp only at h
  replace h := exPure_ok h
  subst h
  refine ⟨?_, by simp⟩
  simp only [List.all_cons, List.all_nil, Bool.and_true, withEnglish_goodNode]
  simp [goodNode, nodeStamp, ifInvB, Node.hdrOf, hc]

/-- `parse_type_check` never succeeds: the `check_map` literal evaluation
raises on every call. -/
theorem parse_type_check_no_ok (tokens : List PyTok) (r : RawIns)
    (deps : Option (List ScopeItem)) (pv : Option ProgramVersionE) (tid : String)
    (ns : List Node) (h : parse_type_check tokens r deps pv tid = .ok ns) : False := by
  unfold parse_type_check at h
  obtain ⟨it0, _hit, h⟩ := exBind_ok h
  dsimp only [exBindPure] at h
  rcases tokens with _ | ⟨t0, rest⟩
  · simp only [exBindPure] at h
    exact Except.noConfusion h
  · dsimp only at h
    obtain ⟨v0, _h1, h⟩ := exBind_ok h
    try dsimp only [exBindPure] at h
    split at h
    · split at h
      · obtain ⟨v1, _h2, h⟩ := exBind_ok h
        try dsimp only at h
        exact Except.noConfusion h
      · exact Except.noConfusion h
    · exact Except.noConfusion h

theorem parse_if_good (tokens : List PyTok) (r : RawIns)
    (deps : Option (List ScopeItem)) (pv : Option ProgramVersionE) (tid : String)
    (ns : List Node) (h : parse_if tokens r deps pv tid = .ok ns) :
    ns.all (goodNode r.n r.t) = true ∧ ns ≠ [] := by
  obtain ⟨it0, hd, c, hit, hstep, hins, hns⟩ := parse_if_shape tokens r deps pv tid ns h
  have hc := insTypeOfCode_code hit
  subst hns
  refine ⟨?_, by simp⟩
  rcases hseqT : r.seqT with _ | v <;> rcases hseqF : r.seqF with _ | w <;>
    simp [goodNode, nodeStamp, ifInvB, Node.hdrOf, Node.isJump, hstep, hins, hc, hseqT, hseqF]

theorem decode_mif_good (r : RawIns) (deps : Option (List ScopeItem))
    (pv : Option ProgramVersionE) (tid : String) (ns : List Node)
    (h : decode_mif r deps pv tid = .ok ns) :
    ns.all (goodNode r.n r.t) = true ∧ ns ≠ [] := by
  obtain ⟨hd, tb, fb, m, hns, hstep, hins, _, _, htb, hfb⟩ := decode_mif_shape r deps pv tid ns h
  subst hns htb hfb
  refine ⟨?_, by simp⟩
  rcases hseqT : r.seqT with _ | v <;> rcases hseqF : r.seqF with _ | w <;>
    simp [goodNode, nodeStamp, ifInvB, Node.hdrOf, Node.isJump, hstep, hins, hseqT, hseqF] <;>
    split_ifs <;> simp [Node.isJump]

set_option maxHeartbeats 1000000 in
/-- Only the opcodes 6 and 254 dispatch to `parse_empty`. -/
theorem parseDispatch_empty {it : InsType} {tid : String}
    (h : parseDispatch it = some (.empty, tid)) :
    it = .EMPTY ∨ it = .DEF_INS_TYPE_SET_UNDERWRITING_TO_FAIL := by
  cases it <;> simp_all [parseDispatch]

set_option maxHeartbeats 1000000 in
/-- Master lemma over `parse`: every successful result satisfies the
`If`-branch invariant, and — when the opcode is a recognized `InsType`
code — every node is stamped with the instruction's step and opcode, the
result being empty only for the two `parse_empty` opcodes (6 and 254). -/
theorem parse_good (tokens : List PyTok) (r : RawIns) (deps : Option (List ScopeItem))
    (pv : Option ProgramVersionE) (depItem : Option ScopeItem) (ns : List Node)
    (h : parse tokens r deps pv depItem = .ok ns) :
    ns.all ifInvB = true ∧
    (∀ it, insTypeOfCode r.t = some it →
      ns.all (nodeStamp r.n r.t) = true ∧
      (ns = [] → it = .EMPTY ∨ it = .DEF_INS_TYPE_SET_UNDERWRITING_TO_FAIL)) := by
  unfold parse at h
  try dsimp only at h
  rcases hdisp : parseDispatch (getInsTypeDef (some r.t)) with _ | pktid
  · rw [hdisp] at h
    try dsimp only at h
    replace h := exPure_ok h
    subst h
    refine ⟨by simp [ifInvB], fun it hit => ?_⟩
    have hg : getInsTypeDef (some r.t) = it := by simp [getInsTypeDef, hit]
    have hc : it.code = r.t := insTypeOfCode_code hit
    refine ⟨?_, fun he => List.noConfusion he⟩
    simp [nodeStamp, Node.hdrOf, hg, hc]
  · obtain ⟨pk, tid⟩ := pktid
    rw [hdisp] at h
    try dsimp only at h
    by_cases hsym : (pyContains r.ins '#' = true ∨ pyContains r.ins '^' = true ∨
        pyContains r.ins '+' = true)
    · rw [if_pos hsym] at h
      obtain ⟨hgood, hne⟩ := decode_mif_good r deps pv tid ns h
      exact ⟨(all_goodNode_sub hgood).1,
        fun it hit => ⟨(all_goodNode_sub hgood).2, fun he => absurd he hne⟩⟩
    · rw [if_neg hsym] at h
      by_cases hnif : getInsTypeDef (some r.t) = InsType.DEF_INS_TYPE_NUMERIC_IF
      · rw [if_pos hnif] at h
        obtain ⟨hgood, hne⟩ := parse_if_good tokens r deps pv tid ns h
        exact ⟨(all_goodNode_sub hgood).1,
          fun it hit => ⟨(all_goodNode_sub hgood).2, fun he => absurd he hne⟩⟩
      · rw [if_neg hnif] at h
        by_cases hspec : (pk = PKind.ifP ∨ pk = PKind.dataSource ∨ pk = PKind.typeCheck)
        · rw [if_pos hspec] at h
          rcases hspec with h1 | h1 | h1 <;> subst h1 <;> try dsimp only at h
          · obtain ⟨hgood, hne⟩ := parse_if_good tokens r deps pv tid ns h
            exact ⟨(all_goodNode_sub hgood).1,
              fun it hit => ⟨(all_goodNode_sub hgood).2, fun he => absurd he hne⟩⟩
          · obtain ⟨hgood, hne⟩ := parse_data_source_good tokens r deps pv tid ns h
            exact ⟨(all_goodNode_sub hgood).1,
              fun it hit => ⟨(all_goodNode_sub hgood).2, fun he => absurd he hne⟩⟩
          · exact (parse_type_check_no_ok tokens r deps pv tid ns h).elim
        · rw [if_neg hspec] at h
          obtain ⟨tgt, _htgt, h⟩ := exBind_ok h
          try dsimp only at h
          cases pk
          all_goals try dsimp only at h
          all_goals try exact absurd (Or.inl rfl) hspec
          all_goals try exact absurd (Or.inr (Or.inl rfl)) hspec
          all_goals try exact absurd (Or.inr (Or.inr rfl)) hspec
          all_goals
            obtain ⟨astNodes, hast, h⟩ := exBind_ok h
            try dsimp only at h
            first
            | (have he0 : astNodes = [] :=
                 parse_empty_good tokens r.n (getInsTypeDef (some r.t)) tgt deps pv tid
                   astNodes hast
               subst he0
               try dsimp only at h
               replace h := exPure_ok h
               subst h
               refine ⟨rfl, fun it hit => ⟨rfl, fun _ => ?_⟩⟩
               have hg : getInsTypeDef (some r.t) = it := by simp [getInsTypeDef, hit]
               rw [hg] at hdisp
               exact parseDispatch_empty hdisp)
            | (have hkg : astNodes.all (goodNode r.n (getInsTypeDef (some r.t)).code) = true ∧
                   astNodes ≠ [] := by
                 first
                 | exact parse_arithmetic_good tokens r.n (getInsTypeDef (some r.t)) tgt deps
                     pv tid astNodes hast
                 | exact parse_call_good tokens r.n (getInsTypeDef (some r.t)) tgt deps
                     pv tid astNodes hast
                 | exact parse_sort_good tokens r.n (getInsTypeDef (some r.t)) tgt deps
                     pv tid astNodes hast
                 | exact parse_mask_good tokens r.n (getInsTypeDef (some r.t)) tgt deps
                     pv tid astNodes hast
                 | exact parse_set_string_good tokens r.n (getInsTypeDef (some r.t)) tgt deps
                     pv tid astNodes hast
                 | exact parse_string_addition_good tokens r.n (getInsTypeDef (some r.t)) tgt
                     deps pv tid astNodes hast
                 | exact parse_date_diff_good tokens r.n (getInsTypeDef (some r.t)) tgt deps
                     pv tid astNodes hast
                 | exact parse_date_addition_good tokens r.n (getInsTypeDef (some r.t)) tgt
                     deps pv tid astNodes hast
                 | exact parse_function_good tokens r.n (getInsTypeDef (some r.t)) tgt deps
                     pv tid astNodes hast
                 | exact parse_rank_flag_good tokens r.n (getInsTypeDef (some r.t)) tgt deps
                     pv tid astNodes hast
               obtain ⟨hgood, hne⟩ := hkg
               have hlink : ns.all (goodNode r.n (getInsTypeDef (some r.t)).code) = true ∧
                   ns ≠ [] := by
                 split at h
                 · try dsimp only at h
                   replace h := exPure_ok h
                   subst h
                   refine ⟨?_, by simp⟩
                   simp only [List.all_cons, Bool.and_eq_true] at hgood ⊢
                   refine ⟨?_, hgood.2⟩
                   rw [withEnglish_goodNode]
                   simpa [goodNode, nodeStamp, ifInvB, Node.hdrOf] using hgood.1
                 · replace h := exPure_ok h
                   subst h
                   exact ⟨hgood, hne⟩
               refine ⟨(all_goodNode_sub hlink.1).1, fun it hit => ?_⟩
               have hg : getInsTypeDef (some r.t) = it := by simp [getInsTypeDef, hit]
               have hc : it.code = r.t := insTypeOfCode_code hit
               have h1 := hlink.1
               rw [hg, hc] at h1
               exact ⟨(all_goodNode_sub h1).2, fun he => absurd he hlink.2⟩)

/-- Master lemma over `decode_ins` (`tokenize` then `parse`). -/
theorem decode_ins_good (r : RawIns) (deps : Option (List ScopeItem))
    (pv : Option ProgramVersionE) (depItem : Option ScopeItem) (ns : List Node)
    (h : decode_ins r deps pv depItem = .ok ns) :
    ns.all ifInvB = true ∧
    (∀ it, insTypeOfCode r.t = some it →
      ns.all (nodeStamp r.n r.t) = true ∧
      (ns = [] → it = .EMPTY ∨ it = .DEF_INS_TYPE_SET_UNDERWRITING_TO_FAIL)) := by
  unfold decode_ins at h
  try dsimp only at h
  obtain ⟨tokens, _ht, h⟩ := exBind_ok h
  try dsimp only at h
  exact parse_good tokens r deps pv depItem ns h

/-! ## C4 -/

/-- An arithmetic instruction whose body has no `#`/`^`/`+`, so `parse`
reaches `parse_arithmetic` with the bare-string token produced by
`tokenize_default` (opcode 0 has no entry in the tokenizer dispatch map). -/
def c4In : RawIns := { n := 1, t := 0, ins := "GI_1*GI_2", insTar := some "PC_9" }

/-- C4: the claim says `render(decode(I))` never raises; in fact `decode`
itself raises an uncaught `AttributeError` on opcode 0 with body
`"GI_1*GI_2"`: `tokenize` falls back to `tokenize_default` (opcode 0 is
absent from the tokenizer dispatch map) and returns a bare `str` fragment,
and `parse_arithmetic` then evaluates `tokens[-1].value` on it.  This
contradicts both the spec's totality property and the source's own type
annotations (`tokenize … -> list[Token]`,
`parse_arithmetic(tokens: list[Token], …)`). -/
theorem C4_decode_raises :
    decode_ins c4In none none none =
      .error "AttributeError: 'str' object has no attribute 'value'" := by
  rfl

/-! ## C10 -/

/-- A node whose `template_id` is absent from the template registry and
whose `english` is empty. -/
def c10Node : Node :=
  .raw { hdr := { step := 0, insType := none, templateId := "NOPE" }, raw := "", value := "" }

/-- C10 counterexample: for a registry-miss with empty `english`,
`render_node` returns the literal `"What?"` — neither the node's `english`
field (empty) nor `"No Template found: NOPE"` as claimed. -/
theorem C10_render_miss_counterexample :
    render_node c10Node = "What?" ∧ "What?" ≠ ("" : String)
      ∧ "What?" ≠ "No Template found: NOPE" :=
  ⟨rfl, by decide, by decide⟩

/-- C10 (amended): when a node's `template_id` is absent from the template
registry, `render_node` returns the node's `english` field when it is
non-empty and the literal `"What?"` otherwise; the
`"No Template found: <id>"` default of the `getattr` call is unreachable for
AST nodes because every AST dataclass has an `english` attribute. -/
theorem C10_render_miss (n : Node)
    (h : templateFound n.hdrOf.templateId = false) :
    render_node n = (if n.hdrOf.english = "" then "What?" else n.hdrOf.english) := by
  simp [render_node, renderTry, h]

/-- A registry-miss node with non-empty `english`. -/
def c10wNode : Node :=
  .raw { hdr := { step := 0, insType := none, templateId := "NOPE", english := "hello" },
         raw := "", value := "" }

/-- Witness for `C10_render_miss` at a concrete node. -/
theorem C10_render_miss_witness :
    templateFound c10wNode.hdrOf.templateId = false ∧
      render_node c10wNode = (if c10wNode.hdrOf.english = "" then "What?"
        else c10wNode.hdrOf.english) :=
  ⟨by decide, C10_render_miss c10wNode (by decide)⟩

/-! ## C1, C2 -/

/-- Spec end-to-end scenario 2: opcode 0, body `GI_573+GC_47RP2`, target
`PC_100`, no jumps. -/
def c1In : RawIns := { n := 2, t := 0, ins := "GI_573+GC_47RP2", insTar := some "PC_100" }

/-- `true` iff the result is a successful singleton that is an `If` node and
not an `Assignment`. -/
def resultSingleIfNotAssign : Except String (List Node) → Bool
  | .ok [n] => n.isIf && !n.isAssign
  | _ => false

/-- C1 counterexample: on spec scenario 2 the decoder returns a single `If`
node (the `+` in the body routes `parse` to `decode_mif`), not the claimed
`Assignment` with an `Arithmetic` expression. -/
theorem C1_scenario2_not_assignment :
    resultSingleIfNotAssign (decode_ins c1In none none none) = true := by rfl

/-- Token list `[VAR l, OP o, VAR rv]` with an optional trailing round token
(whose text in the claim is `!<round>`). -/
def arithToks (l o rv : String) (rtok : Option String) : List PyTok :=
  [.tok { ttype := "VAR", value := l }, .tok { ttype := "OP", value := o },
   .tok { ttype := "VAR", value := rv }] ++
    (match rtok with
     | some s => [.tok { ttype := "ROUND", value := s }]
     | none => [])

/-- The `Arithmetic` fields of a node. -/
def Node.arithFields : Node → Option (String × String × String × Option String)
  | .arith a => some (a.left.raw, a.operator, a.right.raw, a.roundSpec)
  | _ => none

/-- C1 (amended, general part): `parse_arithmetic`, given typed tokens
`[VAR, OP, VAR]` with an optional trailing token starting with `!`, builds a
single bare `Arithmetic{left, op.text, right, round_spec}` node (no
`Assignment` wrapper), where `round_spec` is the trailing token's text with
the `!` stripped. -/
theorem C1_parse_arithmetic_builds (step : Int) (it : InsType) (tgt : Option String)
    (deps : Option (List ScopeItem)) (pv : Option ProgramVersionE) (tid : String)
    (l o rv : String) (rtok : Option String)
    (hr : ∀ s, rtok = some s → pyStartsWith s "!" = true)
    (hnr : rtok = none → pyStartsWith rv "!" = false) :
    ∃ n, parse_arithmetic (arithToks l o rv rtok) step it tgt deps pv tid = .ok [n] ∧
      n.arithFields = some (l, o, rv, rtok.map (fun s => pyDrop s 1)) := by
  cases rtok with
  | none =>
    have hx : pyStartsWith rv "!" = false := hnr rfl
    unfold parse_arithmetic arithToks
    simp only [List.append_nil, List.getLast?, List.getLast, PyTok.value, exBindOkRed, hx,
      Bool.false_eq_true, if_false]
    exact ⟨_, rfl, rfl⟩
  | some s =>
    have hx : pyStartsWith s "!" = true := hr s rfl
    unfold parse_arithmetic arithToks
    simp only [List.cons_append, List.nil_append, List.getLast?, List.getLast, PyTok.value,
      exBindOkRed, hx, if_true, List.dropLast]
    exact ⟨_, rfl, rfl⟩

/-- Witness for `C1_parse_arithmetic_builds` at scenario 2's pieces. -/
theorem C1_parse_arithmetic_builds_witness :
    ∃ n, parse_arithmetic (arithToks "GI_573" "+" "GC_47" (some "!P2")) 2
        .DEF_INS_TYPE_ARITHEMETIC (some "PC_100") none none "ASSIGNMENT" = .ok [n] ∧
      n.arithFields = some ("GI_573", "+", "GC_47", some "P2") :=
  C1_parse_arithmetic_builds 2 .DEF_INS_TYPE_ARITHEMETIC (some "PC_100") none none
    "ASSIGNMENT" "GI_573" "+" "GC_47" (some "!P2")
    (fun _s hs => by cases hs; rfl) (fun hn => nomatch hn)

/-- C2: for every instruction whose (recognized) opcode has a parser
dispatch entry, a body containing `#`, `^` or `+` makes `parse` return
`decode_mif`'s result verbatim — bypassing the opcode's own parser — and any
successful such result is exactly one `If` node over a `MultiCondition`
whose clauses all carry `cond_op = joiner`. -/
theorem C2_multiif_bypass (tokens : List PyTok) (r : RawIns)
    (deps : Option (List ScopeItem)) (pv : Option ProgramVersionE)
    (depItem : Option ScopeItem) (pk : PKind) (tid : String)
    (hdisp : parseDispatch (getInsTypeDef (some r.t)) = some (pk, tid))
    (hsym : pyContains r.ins '#' = true ∨ pyContains r.ins '^' = true
      ∨ pyContains r.ins '+' = true) :
    parse tokens r deps pv depItem = decode_mif r deps pv tid ∧
    ∀ ns, parse tokens r deps pv depItem = .ok ns →
      ∃ hd tb fb m, ns = [.ifN hd tb fb (some (.multi m))] ∧
        ∀ c ∈ m.conditions, c.condOp = some m.joiner := by
  have heq : parse tokens r deps pv depItem = decode_mif r deps pv tid := by
    unfold parse
    dsimp only
    rw [hdisp]
    dsimp only
    rw [if_pos hsym]
  refine ⟨heq, fun ns h => ?_⟩
  rw [heq] at h
  obtain ⟨hd, tb, fb, m, hns, _, _, _, hcnd, _, _⟩ :=
    decode_mif_shape r deps pv tid ns h
  exact ⟨hd, tb, fb, m, hns, hcnd⟩

/-- Witness for `C2_multiif_bypass`: spec scenario 2's instruction (opcode 0
with a `+` in the body). -/
theorem C2_multiif_bypass_witness :
    parse [] c1In none none none = decode_mif c1In none none "ASSIGNMENT" ∧
    ∀ ns, parse [] c1In none none none = .ok ns →
      ∃ hd tb fb m, ns = [.ifN hd tb fb (some (.multi m))] ∧
        ∀ c ∈ m.conditions, c.condOp = some m.joiner :=
  C2_multiif_bypass [] c1In none none none .arith "ASSIGNMENT" (by rfl)
    (Or.inr (Or.inr (by rfl)))

/-! ## C5 -/

/-- The multi-IF instruction of the failing default-joiner case: `#` present
but neither `^` nor `+` in the multi-body. -/
def c5In : RawIns :=
  { n := 1, t := 1, ins := "|A|=|B|#|C|=|D|", seqT := some 9, seqF := some 10 }

/-- The joiner of a successful single-`If`-over-`MultiCondition` result. -/
def resultJoiner : Except String (List Node) → Option String
  | .ok [.ifN _ _ _ (some (.multi m))] => some m.joiner
  | _ => none

/-- C5 counterexample: for a multi-body containing neither `^` nor `+` the
claim demands the default joiner `"OR"`; the code chooses `"AND"` (the
`else` branch of `decode_mif` is unconditionally `'+'/"AND"`). -/
theorem C5_default_joiner_counterexample :
    pyContains (mifSplit c5In.ins).2 '^' = false ∧
      pyContains (mifSplit c5In.ins).2 '+' = false ∧
      resultJoiner (decode_ins c5In none none none) = some "AND" :=
  ⟨by rfl, by rfl, by rfl⟩

/-- C5 (amended): the joiner of every successful `decode_mif` result is
`"OR"` exactly when `^` occurs in the multi-body and `"AND"` otherwise —
in particular `"OR"` when both `^` and `+` are present, and `"AND"` (not the
claimed default `"OR"`) when neither is. -/
theorem C5_joiner_rule (r : RawIns) (deps : Option (List ScopeItem))
    (pv : Option ProgramVersionE) (tid : String) (ns : List Node)
    (h : decode_mif r deps pv tid = .ok ns) :
    ∃ hd tb fb m, ns = [.ifN hd tb fb (some (.multi m))] ∧
      m.joiner = (if pyContains (mifSplit r.ins).2 '^' = true then "OR" else "AND") := by
  obtain ⟨hd, tb, fb, m, hns, _, _, hj, _, _, _⟩ := decode_mif_shape r deps pv tid ns h
  refine ⟨hd, tb, fb, m, hns, ?_⟩
  rw [hj]
  unfold mifJoinerPair
  by_cases hx : pyContains (mifSplit r.ins).2 '^' = true
  · rw [if_pos (by simpa using hx), if_pos hx]
  · rw [if_neg (by simpa using hx), if_neg hx]

/-- Witness for `C5_joiner_rule` at the concrete `#`-only instruction. -/
theorem C5_joiner_rule_witness :
    ∃ ns, decode_mif c5In none none "IF_COMPARE" = .ok ns ∧
      ∃ hd tb fb m, ns = [.ifN hd tb fb (some (.multi m))] ∧
        m.joiner = (if pyContains (mifSplit c5In.ins).2 '^' = true then "OR" else "AND") := by
  cases hq : decode_mif c5In none none "IF_COMPARE" with
  | error e =>
    have hik : exIsOk (decode_mif c5In none none "IF_COMPARE") = true := by rfl
    rw [hq] at hik
    exact absurd hik (by simp [exIsOk])
  | ok ns => exact ⟨ns, rfl, C5_joiner_rule c5In none none "IF_COMPARE" ns hq⟩

/-! ## C6 -/

/-- A single-clause numeric IF with `seq_true = 0` (explicitly no branch per
the claim) and `seq_false` unset. -/
def c6In : RawIns := { n := 1, t := 1, ins := "|A|=|B|", seqT := some 0 }

/-- The true branch of a successful single-`If` result. -/
def resultTrueBranch : Except String (List Node) → Option (List Node)
  | .ok [.ifN _ tb _ _] => some tb
  | _ => none

/-- The false branch of a successful single-`If` result. -/
def resultFalseBranch : Except String (List Node) → Option (List Node)
  | .ok [.ifN _ _ fb _] => some fb
  | _ => none

/-- C6 counterexample: with `seq_true = 0` the claim demands an empty true
branch; `parse_if` (the single-clause IF path) attaches `[Jump(target=0)]`
because its guard is only `is not None`, with no `> 0` test. -/
theorem C6_seq_zero_counterexample :
    c6In.seqT = some 0 ∧
      resultTrueBranch (decode_ins c6In none none none) =
        some [.jump { hdr := { step := 1, insType := some 1, templateId := "JUMP" },
                      target := some 0 }] :=
  ⟨rfl, by rfl⟩

/-- C6 (amended): in multi-IF decoding (`decode_mif`) a branch `Jump` is
attached — on the true branch for `seq_t` and the false branch for
`seq_f` — exactly when the sequence value is non-null and strictly
positive (0 and null both give an empty branch), but in the single-clause
`parse_if` path any non-null sequence value — 0 included — attaches a
`Jump` with that target on the corresponding branch, and only a null
value gives an empty branch.  (`parse_type_check`, the third
branch-builder, never completes: see C4/C3 analysis — its `check_map`
evaluation raises on every call.) -/
theorem C6_branch_attachment (r : RawIns) (tokens : List PyTok)
    (deps : Option (List ScopeItem)) (pv : Option ProgramVersionE) (tid : String) :
    (∀ tb, resultTrueBranch (parse_if tokens r deps pv tid) = some tb →
      ((r.seqT = none → tb = []) ∧
       ∀ v, r.seqT = some v → ∃ j, tb = [.jump j] ∧ j.target = some v)) ∧
    (∀ fb, resultFalseBranch (parse_if tokens r deps pv tid) = some fb →
      ((r.seqF = none → fb = []) ∧
       ∀ v, r.seqF = some v → ∃ j, fb = [.jump j] ∧ j.target = some v)) ∧
    (∀ tb, resultTrueBranch (decode_mif r deps pv tid) = some tb →
      ((r.seqT = none → tb = []) ∧
       (∀ v, r.seqT = some v → v ≤ 0 → tb = []) ∧
       (∀ v, r.seqT = some v → v > 0 → ∃ j, tb = [.jump j] ∧ j.target = some v))) ∧
    (∀ fb, resultFalseBranch (decode_mif r deps pv tid) = some fb →
      ((r.seqF = none → fb = []) ∧
       (∀ v, r.seqF = some v → v ≤ 0 → fb = []) ∧
       (∀ v, r.seqF = some v → v > 0 → ∃ j, fb = [.jump j] ∧ j.target = some v))) := by
  refine ⟨?_, ?_, ?_, ?_⟩
  · intro tb htb
    cases hq : parse_if tokens r deps pv tid with
    | error e => rw [hq] at htb; simp [resultTrueBranch] at htb
    | ok ns =>
      obtain ⟨it0, hd, c, _, _, _, hns⟩ := parse_if_shape tokens r deps pv tid ns hq
      subst hns
      rw [hq] at htb
      unfold resultTrueBranch at htb
      cases htb
      constructor
      · intro hv; rw [hv]
      · intro v hv; rw [hv]; exact ⟨_, rfl, rfl⟩
  · intro fb hfb
    cases hq : parse_if tokens r deps pv tid with
    | error e => rw [hq] at hfb; simp [resultFalseBranch] at hfb
    | ok ns =>
      obtain ⟨it0, hd, c, _, _, _, hns⟩ := parse_if_shape tokens r deps pv tid ns hq
      subst hns
      rw [hq] at hfb
      unfold resultFalseBranch at hfb
      cases hfb
      constructor
      · intro hv; rw [hv]
      · intro v hv; rw [hv]; exact ⟨_, rfl, rfl⟩
  · intro tb htb
    cases hq : decode_mif r deps pv tid with
    | error e => rw [hq] at htb; simp [resultTrueBranch] at htb
    | ok ns =>
      obtain ⟨hd, tb0, fb0, m, hns, _, _, _, _, htb0, _⟩ :=
        decode_mif_shape r deps pv tid ns hq
      subst hns
      rw [hq] at htb
      unfold resultTrueBranch at htb
      cases htb
      subst htb0
      refine ⟨fun hv => by rw [hv], fun v hv hle => ?_, fun v hv hgt => ?_⟩
      · rw [hv]; simp [Int.not_lt.mpr hle]
      · rw [hv]; simp only [if_pos hgt]; exact ⟨_, rfl, rfl⟩
  · intro fb hfb
    cases hq : decode_mif r deps pv tid with
    | error e => rw [hq] at hfb; simp [resultFalseBranch] at hfb
    | ok ns =>
      obtain ⟨hd, tb0, fb0, m, hns, _, _, _, _, _, hfb0⟩ :=
        decode_mif_shape r deps pv tid ns hq
      subst hns
      rw [hq] at hfb
      unfold resultFalseBranch at hfb
      cases hfb
      subst hfb0
      refine ⟨fun hv => by rw [hv], fun v hv hle => ?_, fun v hv hgt => ?_⟩
      · rw [hv]; simp [Int.not_lt.mpr hle]
      · rw [hv]; simp only [if_pos hgt]; exact ⟨_, rfl, rfl⟩

/-- Witness for `C6_branch_attachment` at the `seq_true = 0`,
`seq_false = null` instruction: the 0-valued sequence attaches a `Jump`
on the true branch in the `parse_if` path, and the null `seq_false`
leaves the false branch empty. -/
theorem C6_branch_attachment_witness :
    (∃ j, ([.jump { hdr := { step := 1, insType := some 1, templateId := "JUMP" },
                    target := some 0 } ] : List Node) = [.jump j] ∧ j.target = some 0) ∧
    ([] : List Node) = [] :=
  ⟨((C6_branch_attachment c6In [] none none "IF_COMPARE").1
      [.jump { hdr := { step := 1, insType := some 1, templateId := "JUMP" }, target := some 0 }]
      (by rfl)).2 0 rfl,
   ((C6_branch_attachment c6In [] none none "IF_COMPARE").2.1 [] (by rfl)).1 rfl⟩

/-! ## C8 -/

/-- "Missing from every lookup table", mirroring the branch structure of
`get_var_desc` after token splitting: the `LS` prefix always resolves, the
`GI/LX/IX` family misses when the program version's input dictionary has no
matching entry, the scope families miss when no matching dependency is
found, and unknown prefixes or absent scope/program arguments always
miss. -/
def lookupMisses (tok : String) (deps : Option (List ScopeItem))
    (pv : Option ProgramVersionE) : Bool :=
  match splitVarToken tok with
  | none => true
  | some (pre, varId, _) =>
    if (pre = "GI" ∨ pre = "LX" ∨ pre = "IX") ∧ pv.isSome then
      match pv with
      | some p =>
        (p.dataDictionary.inputs.find?
          (fun iv => iv.index == varId && iv.line == p.line)).isNone
      | none => true
    else if pre = "LS" then false
    else
      match deps with
      | some ds =>
        if pre = "PL" ∨ pre = "GL" ∨ pre = "PQ" ∨ pre = "GQ" then
          (ds.find? (fun it =>
            match it with
            | .dep d => d.isTableVariable && d.index == varId
            | .alg => false)).isNone
        else if pre = "GR" ∨ pre = "PR" then
          (ds.find? (fun it =>
            match it with
            | .dep d => d.isResultVariable && d.index == varId
            | .alg => false)).isNone
        else if pre = "PC" ∨ pre = "GC" ∨ pre = "PP" ∨ pre = "GP" then
          (ds.find? (fun it =>
            match it with
            | .dep d => d.isCalculatedVariable && d.calcIndex == some varId
            | .alg => false)).isNone
        else true
      | none => true

/-- C8: `get_var_desc` is total (it is a Lean function; the only Python
exception on its paths, the `ValueError` of `split_var_token`, is caught and
modelled by `Option`), and any token that is not an operator, not a
bracketed literal, and either fails the `<prefix>_<digits>` grammar or
misses every lookup table is returned verbatim. -/
theorem C8_unresolvable_verbatim (tok : String) (tt : Option String)
    (deps : Option (List ScopeItem)) (pv : Option ProgramVersionE)
    (h1 : opMap tok = none) (h2 : pyStartsWith tok "\x7b" = false)
    (h3 : pyStartsWith tok "[" = false)
    (h4 : lookupMisses tok deps pv = true) :
    get_var_desc tok tt deps pv = tok := by
  unfold get_var_desc lookupMisses at *
  simp only [h1, h2, h3, Bool.false_eq_true, or_self, if_false]
  cases hs : splitVarToken tok with
  | none => simp [hs]
  | some pvs =>
    obtain ⟨pre, varId, sub⟩ := pvs
    rw [hs] at h4
    dsimp only at h4
    simp only [hs]
    by_cases hgi : (pre = "GI" ∨ pre = "LX" ∨ pre = "IX") ∧ pv.isSome = true
    · rw [if_pos hgi] at h4 ⊢
      cases pv with
      | none => simp at hgi
      | some p =>
        simp only [Option.isNone_iff_eq_none] at h4
        simp [h4]
    · rw [if_neg hgi] at h4 ⊢
      by_cases hls : pre = "LS"
      · rw [if_pos hls] at h4; exact absurd h4 (by simp)
      · rw [if_neg hls] at h4 ⊢
        cases deps with
        | none => rfl
        | some ds =>
          dsimp only at h4 ⊢
          by_cases htab : pre = "PL" ∨ pre = "GL" ∨ pre = "PQ" ∨ pre = "GQ"
          · rw [if_pos htab] at h4 ⊢
            simp only [Option.isNone_iff_eq_none] at h4
            simp [h4]
          · rw [if_neg htab] at h4 ⊢
            by_cases hres : pre = "GR" ∨ pre = "PR"
            · rw [if_pos hres] at h4 ⊢
              simp only [Option.isNone_iff_eq_none] at h4
              simp [h4]
            · rw [if_neg hres] at h4 ⊢
              by_cases hcalc : pre = "PC" ∨ pre = "GC" ∨ pre = "PP" ∨ pre = "GP"
              · rw [if_pos hcalc] at h4 ⊢
                simp only [Option.isNone_iff_eq_none] at h4
                simp [h4]
              · rw [if_neg hcalc]

/-- Witness for `C8_unresolvable_verbatim` at the concrete token `"ZZ_9"`
(well-formed grammar, unknown prefix, empty scope). -/
theorem C8_unresolvable_verbatim_witness :
    opMap "ZZ_9" = none ∧ lookupMisses "ZZ_9" none none = true ∧
      get_var_desc "ZZ_9" none none none = "ZZ_9" :=
  ⟨by decide, by decide,
    C8_unresolvable_verbatim "ZZ_9" none none none (by decide) (by decide) (by decide)
      (by decide)⟩

/-! ## C7 -/

/-- An empty program version. -/
def pvEmpty : ProgramVersionE := { line := "", dataDictionary := { inputs := [] } }

/-- A calculated-variable dependency used as the enclosing `dep_item`. -/
def c7DepE : DepE := { description := "d", index := 1, calcIndex := some 1, ibType := some "10" }

/-- A not-yet-decoded slot holding the instruction whose decode raises. -/
def c7Slot : InstrSlot := { ins := c4In }

/-- C7 counterexample: on a dependency-chain step whose decode raises, the
driver stores the empty list (`except Exception: instr.ast = []`), not the
claimed single `Raw{value="Repository ERROR: <message>"}` node. -/
theorem C7_dep_error_counterexample :
    exIsOk (decode_ins c4In (some []) (some pvEmpty) (some (.dep c7DepE))) = false ∧
      (decodeDepStep [] pvEmpty (.dep c7DepE) c7Slot).ast = some [] :=
  ⟨rfl, rfl⟩

/-- C7 (amended): when decoding raises, a direct algorithm step gets exactly
one `Raw` node valued `"Repository ERROR: <message>"` as its AST, and
sibling steps are unaffected (the driver maps each step independently); but
a step in the dependency chain gets the empty list instead. -/
theorem C7_driver_error_handling (depVars : List ScopeItem) (pv : ProgramVersionE)
    (slot : InstrSlot) (e : String) (hast : slot.ast = none) :
    (decode_ins slot.ins (some depVars) (some pv) none = .error e →
      decodeMainStep depVars pv slot =
        { slot with ast := some [.raw
            { hdr := { step := slot.ins.n, insType := some slot.ins.t },
              raw := "", value := "Repository ERROR: " ++ e }] }) ∧
    (∀ curDep, decode_ins slot.ins (some depVars) (some pv) (some curDep) = .error e →
      decodeDepStep depVars pv curDep slot = { slot with ast := some [] }) ∧
    (∀ a : AlgorithmChain,
      (processAlgorithm pv a).mainSteps =
        a.mainSteps.map
          (decodeMainStep (a.depVars.map (fun c => ScopeItem.dep c.info)) pv)) := by
  refine ⟨fun herr => ?_, fun curDep herr => ?_, fun a => rfl⟩
  · unfold decodeMainStep
    rw [hast, herr]
  · unfold decodeDepStep
    rw [hast, herr]

/-- Witness for `C7_driver_error_handling` at the raising instruction. -/
theorem C7_driver_error_handling_witness :
    decodeMainStep [] pvEmpty c7Slot =
      { c7Slot with ast := some [.raw
          { hdr := { step := c7Slot.ins.n, insType := some c7Slot.ins.t },
            raw := "",
            value := "Repository ERROR: AttributeError: 'str' object has no attribute 'value'" }] } :=
  (C7_driver_error_handling [] pvEmpty c7Slot
    "AttributeError: 'str' object has no attribute 'value'" rfl).1 (by rfl)

/-! ## C3 -/

/-- An opcode-6 (`EMPTY`) instruction: `parse_empty` returns `[]`. -/
def c3In : RawIns := { n := 1, t := 6, ins := "", insTar := some "" }

/-- A recognized-opcode instruction (opcode 1, `NUMERIC_IF`) whose decode
succeeds with a non-empty, correctly stamped node list. -/
def c3wIn : RawIns :=
  { n := 3, t := 1, ins := "|GI_84|>|GC_47|", insTar := some "",
    seqT := some 5, seqF := some 7 }

/-- C3 counterexample: opcode 6 (`EMPTY`) is a recognized opcode, yet
`decode` returns the *empty* node list, refuting the claim's "non-empty"
part (the spec itself notes opcodes 6/254 "produce no nodes"). -/
theorem C3_empty_counterexample : decode_ins c3In none none none = .ok [] := by rfl

/-- C3 (amended): for every instruction whose opcode is a recognized
`InsType` code, every node of a successful decode is stamped with the
instruction's step (`node.step == I.step`) and opcode
(`node.ins_type == I.opcode`), and the node list is empty only for the two
no-op opcodes 6 (`EMPTY`) and 254 (`SET_UNDERWRITING_TO_FAIL`). -/
theorem C3_stamp_nonempty (r : RawIns) (deps : Option (List ScopeItem))
    (pv : Option ProgramVersionE) (depItem : Option ScopeItem) (ns : List Node)
    (it : InsType) (hit : insTypeOfCode r.t = some it)
    (h : decode_ins r deps pv depItem = .ok ns) :
    ns.all (nodeStamp r.n r.t) = true ∧
    (ns = [] → it = .EMPTY ∨ it = .DEF_INS_TYPE_SET_UNDERWRITING_TO_FAIL) :=
  (decode_ins_good r deps pv depItem ns h).2 it hit

/-- Witness for `C3_stamp_nonempty` on a concrete `NUMERIC_IF` instruction. -/
theorem C3_stamp_nonempty_witness :
    ((decode_ins c3wIn none none none).toOption.getD []).all (nodeStamp 3 1) = true := by
  cases hq : decode_ins c3wIn none none none with
  | error e =>
    have hok : exIsOk (decode_ins c3wIn none none none) = true := by rfl
    rw [hq] at hok
    exact Bool.noConfusion hok
  | ok ns =>
    have hmain := (C3_stamp_nonempty c3wIn none none none ns
      InsType.DEF_INS_TYPE_NUMERIC_IF (by rfl) hq).1
    simpa [hq, Except.toOption] using hmain

/-! ## C9 -/

/-- A `NUMERIC_IF` instruction with both jump sequences set, for the `If`
branch-shape witness. -/
def c9In : RawIns :=
  { n := 1, t := 1, ins := "|GI_84|>|GC_47|", insTar := some "",
    seqT := some 5, seqF := some 7 }

/-- C9: every `If` node in a successful decode has `true_branch` and
`false_branch` of length at most 1, any element being a `Jump` node
(`ifInvB` is exactly that predicate; it is trivially true on non-`If`
nodes, and the decoder builds branch lists only as `[]` or `[Jump(...)]`). -/
theorem C9_if_branch_invariant (r : RawIns) (deps : Option (List ScopeItem))
    (pv : Option ProgramVersionE) (depItem : Option ScopeItem) (ns : List Node)
    (h : decode_ins r deps pv depItem = .ok ns) :
    ns.all ifInvB = true :=
  (decode_ins_good r deps pv depItem ns h).1

/-- Witness for `C9_if_branch_invariant` on a concrete `NUMERIC_IF`
instruction with both branches populated. -/
theorem C9_if_branch_invariant_witness :
    ((decode_ins c9In none none none).toOption.getD []).all ifInvB = true := by
  cases hq : decode_ins c9In none none none with
  | error e =>
    have hok : exIsOk (decode_ins c9In none none none) = true := by rfl
    rw [hq] at hok
    exact Bool.noConfusion hok
  | ok ns =>
    simpa [hq, Except.toOption] using C9_if_branch_invariant c9In none none none ns hq

end Insbridge
